import Mathlib

/-!
Shallow embedding of the multi-cluster registry of ysicing/nexus
(pkg/cluster/manager_db.go, pkg/cluster/manager.go, pkg/cluster/health.go,
pkg/models/cluster.go) together with proofs about its operations.

Conventions of the embedding:
* Go `time.Time` values are modelled as `Nat` clock readings; each operation
  takes the current reading as an explicit `now` argument (the zero value of
  `time.Time` is modelled as `0`).
* The Go map `map[string]*ClusterInfo` is modelled as a `List ClusterInfo`
  keyed by the `ID` field; map assignment replaces every entry with the same
  key (there is at most one) or appends, deletion filters, and lookup scans.
  Go's arbitrary map iteration order becomes the list order, which determines
  the record picked by the `for ... break` default elections.
* A `*kube.K8sClient` pointer is modelled by the `Client : Bool` field
  (`true` iff the pointer is non-nil).
* Fallible external calls (kubeconfig parsing, client construction, version
  probe, database I/O) are modelled by explicit environment records and
  boolean oracles passed to the operation.
* The gorm-backed repository is modelled as a list of rows; `Create` is a
  plain INSERT that fails when a row (live or soft-deleted) already holds the
  primary key, `Delete` is a soft delete, and reads exclude tombstoned rows,
  matching pkg/models/cluster.go.
-/

namespace Nexus

/-- `ClusterStatus` from pkg/cluster/manager.go is a string type. -/
abbrev ClusterStatus := String

/-- `ClusterStatusHealthy` constant. -/
def ClusterStatusHealthy : ClusterStatus := "healthy"

/-- `ClusterStatusUnhealthy` constant. -/
def ClusterStatusUnhealthy : ClusterStatus := "unhealthy"

/-- `ClusterStatusUnreachable` constant. -/
def ClusterStatusUnreachable : ClusterStatus := "unreachable"

/-- `ClusterStatusUnknown` constant. -/
def ClusterStatusUnknown : ClusterStatus := "unknown"

/-- In-memory record, struct `ClusterInfo` of pkg/cluster/manager.go.
`Config`/`Client` pointers are modelled by the boolean `Client` (non-nil
client); `Labels` (a Go map) is an association list. -/
structure ClusterInfo where
  ID : String
  Name : String
  Description : String
  Server : String
  Version : String
  Status : ClusterStatus
  Client : Bool
  Context : String
  Labels : List (String × String)
  CreatedAt : Nat
  UpdatedAt : Nat
  LastCheck : Nat
  IsDefault : Bool
  KubeconfigPath : String
  KubeconfigContent : String
  PrometheusURL : String
  PrometheusUsername : String
  PrometheusPassword : String
  PrometheusEnabled : Bool
deriving DecidableEq

/-- Database row, struct `ClusterModel` of pkg/models/cluster.go.
`Labels` is stored as a JSON string in Go; the JSON (de)serialization is
modelled structurally as the association list itself.  `DeletedAt` is the
gorm soft-delete tombstone (`true` = deleted). -/
structure ClusterModel where
  ID : String
  Name : String
  Description : String
  Server : String
  Version : String
  Status : String
  Context : String
  Labels : List (String × String)
  IsDefault : Bool
  IsInCluster : Bool
  KubeconfigPath : String
  KubeconfigContent : String
  PrometheusURL : String
  PrometheusUsername : String
  PrometheusPassword : String
  PrometheusEnabled : Bool
  LastCheck : Nat
  CreatedAt : Nat
  UpdatedAt : Nat
  DeletedAt : Bool
deriving DecidableEq

/-- The database table `clusters`. -/
abbrev DB := List ClusterModel

/-- In-memory registry state of `ManagerWithDB`: the cluster map and the
default pointer (pkg/cluster/manager_db.go lines 21-28). -/
structure ManagerState where
  clusters : List ClusterInfo
  defaultID : String
deriving DecidableEq

/-- Combined state: in-memory registry plus the durable store behind the
`ClusterRepository`. -/
structure SystemState where
  mem : ManagerState
  db : DB
deriving DecidableEq

/-- Lookup `m.clusters[id]` in the Go map. -/
def lookupCluster (cs : List ClusterInfo) (id : String) : Option ClusterInfo :=
  cs.find? (fun c => c.ID == id)

/-- Go map assignment `m.clusters[c.ID] = c`: replace the entry with the same
key, or append a new entry. -/
def mapAssign (cs : List ClusterInfo) (c : ClusterInfo) : List ClusterInfo :=
  if cs.any (fun x => x.ID == c.ID) then
    cs.map (fun x => if x.ID == c.ID then c else x)
  else
    cs ++ [c]

/-- Go map deletion `delete(m.clusters, id)`. -/
def mapDelete (cs : List ClusterInfo) (id : String) : List ClusterInfo :=
  cs.filter (fun c => !(c.ID == id))

/-- Number of records whose `IsDefault` flag is set. -/
def countDefaults (cs : List ClusterInfo) : Nat :=
  (cs.filter (fun c => c.IsDefault)).length

/-- Structured rendering of the `fmt.Errorf` failures returned by the
registry operations. -/
inductive ClusterError
  | invalidKubeconfig
  | noContextFound
  | clientConfigFailed
  | connectionFailed
  | notFound
  | protectedResource
  | noDefaultConfigured
  | noClusterAvailable
  | persistenceFailed
deriving DecidableEq

/-- `ClusterRepositoryImpl.Create` (pkg/models/cluster.go): `r.db.Create` is a
plain INSERT; it fails when any row — live or soft-deleted — already occupies
the primary key, or when the backend itself errors (`ok = false`). -/
def repoCreate (db : DB) (m : ClusterModel) (ok : Bool) : Except Unit DB :=
  if !ok then .error ()
  else if db.any (fun r => r.ID == m.ID) then .error ()
  else .ok (db ++ [m])

/-- `ClusterRepositoryImpl.Delete`: gorm soft delete of the rows with the
given id; `ok = false` models a backend error. -/
def repoDelete (db : DB) (id : String) (ok : Bool) : Except Unit DB :=
  if ok then
    .ok (db.map (fun r => if r.ID == id && !r.DeletedAt then
      { r with DeletedAt := true } else r))
  else .error ()

/-- `ClusterRepositoryImpl.GetAll`: live (non-tombstoned) rows. -/
def repoGetAll (db : DB) : List ClusterModel :=
  db.filter (fun r => !r.DeletedAt)

/-- `ClusterRepositoryImpl.UpdatePrometheusConfig`: gorm `Updates` on the live
rows with the given id (a zero-row match is not an error);
`ok = false` models a backend error. -/
def repoUpdatePrometheusConfig (db : DB) (id url username password : String)
    (enabled ok : Bool) : Except Unit DB :=
  if ok then
    .ok (db.map (fun r => if r.ID == id && !r.DeletedAt then
      { r with PrometheusURL := url, PrometheusUsername := username,
               PrometheusPassword := password, PrometheusEnabled := enabled }
      else r))
  else .error ()

/-- Body of `ManagerWithDB.saveClusterToDB` (manager_db.go lines 330-363):
build a `ClusterModel` from the in-memory record (labels JSON-marshalled,
modelled structurally) with the caller-supplied `isInCluster` flag. -/
def toClusterModel (c : ClusterInfo) (isInCluster : Bool) : ClusterModel :=
  { ID := c.ID, Name := c.Name, Description := c.Description,
    Server := c.Server, Version := c.Version, Status := c.Status,
    Context := c.Context, Labels := c.Labels, IsDefault := c.IsDefault,
    IsInCluster := isInCluster, KubeconfigPath := c.KubeconfigPath,
    KubeconfigContent := c.KubeconfigContent,
    PrometheusURL := c.PrometheusURL,
    PrometheusUsername := c.PrometheusUsername,
    PrometheusPassword := c.PrometheusPassword,
    PrometheusEnabled := c.PrometheusEnabled,
    LastCheck := c.LastCheck, CreatedAt := c.CreatedAt,
    UpdatedAt := c.UpdatedAt, DeletedAt := false }

/-- `ManagerWithDB.saveClusterToDB`: convert and `repo.Create`. -/
def saveClusterToDB (db : DB) (c : ClusterInfo) (isInCluster ok : Bool) :
    Except Unit DB :=
  repoCreate db (toClusterModel c isInCluster) ok

/-- A persistence call whose failure is only logged (`klog.Warningf`): the
store keeps its previous contents on error. -/
def logged (db : DB) (res : Except Unit DB) : DB :=
  match res with
  | .ok d => d
  | .error _ => db

/-- Environment for `ManagerWithDB.AddCluster`: outcomes of the external
calls (kubeconfig parse, context resolution, REST config, client build,
version probe). -/
structure ConnEnv where
  parseOk : Bool
  currentContext : String
  clientCfgOk : Bool
  host : String
  clientOk : Bool
  version : Option String
deriving DecidableEq

/-- `ManagerWithDB.AddCluster` (manager_db.go lines 468-534).  Returns the
result of the Go call together with the post-state; on every error path the
state is returned unchanged.  `now` is the Unix-seconds clock reading used
both for the generated id `custom-<now>` and the record timestamps. -/
def AddCluster (s : SystemState) (name description : String)
    (labels : List (String × String)) (env : ConnEnv) (now : Nat)
    (dbOk : Bool) : Except ClusterError ClusterInfo × SystemState :=
  if !env.parseOk then (.error .invalidKubeconfig, s)
  else if env.currentContext == "" then (.error .noContextFound, s)
  else if !env.clientCfgOk then (.error .clientConfigFailed, s)
  else if !env.clientOk then (.error .connectionFailed, s)
  else
    let clusterID := "custom-" ++ toString now
    let info : ClusterInfo :=
      { ID := clusterID, Name := name, Description := description,
        Server := env.host, Version := env.version.getD "",
        Status := ClusterStatusUnknown, Client := true,
        Context := env.currentContext, Labels := labels,
        CreatedAt := now, UpdatedAt := now, LastCheck := 0,
        IsDefault := false, KubeconfigPath := "", KubeconfigContent := "",
        PrometheusURL := "", PrometheusUsername := "",
        PrometheusPassword := "", PrometheusEnabled := false }
    -- `m.clusters[clusterID] = clusterInfo; if len(m.clusters) == 1 {...}`:
    -- the length test runs after the insertion.
    let isDef := (mapAssign s.mem.clusters info).length == 1
    let info1 := if isDef then { info with IsDefault := true } else info
    let clusters1 := mapAssign s.mem.clusters info1
    let defaultID1 := if isDef then clusterID else s.mem.defaultID
    let db1 := logged s.db (saveClusterToDB s.db info1 false dbOk)
    (.ok info1, ⟨⟨clusters1, defaultID1⟩, db1⟩)

/-- `ManagerWithDB.RemoveCluster` (manager_db.go lines 537-573).  `delOk` and
`saveOk` are the backend oracles for `repo.Delete` and the
`saveClusterToDB` of the newly elected default. -/
def RemoveCluster (s : SystemState) (clusterID : String)
    (delOk saveOk : Bool) : Option ClusterError × SystemState :=
  match lookupCluster s.mem.clusters clusterID with
  | none => (some .notFound, s)
  | some _ =>
    if clusterID == "in-cluster" then (some .protectedResource, s)
    else
      let clusters1 := mapDelete s.mem.clusters clusterID
      let db1 := logged s.db (repoDelete s.db clusterID delOk)
      if s.mem.defaultID == clusterID then
        -- elect the first remaining record (if any) as the new default
        match clusters1 with
        | [] => (none, ⟨⟨[], ""⟩, db1⟩)
        | c :: rest =>
          let c1 := { c with IsDefault := true }
          let db2 := logged db1
            (saveClusterToDB db1 c1 (c1.ID == "in-cluster") saveOk)
          (none, ⟨⟨c1 :: rest, c1.ID⟩, db2⟩)
      else (none, ⟨⟨clusters1, s.mem.defaultID⟩, db1⟩)

/-- `ManagerWithDB.GetCluster` (manager_db.go lines 576-586). -/
def GetCluster (m : ManagerState) (clusterID : String) :
    Except ClusterError ClusterInfo :=
  match lookupCluster m.clusters clusterID with
  | none => .error .notFound
  | some c => .ok c

/-- `ManagerWithDB.GetDefaultCluster` (manager_db.go lines 589-598).  The Go
code returns `m.clusters[m.defaultID]` without an existence check, so a
dangling pointer would yield a nil record with a nil error; the `Option` in
the success value models that nil pointer. -/
def GetDefaultCluster (m : ManagerState) :
    Except ClusterError (Option ClusterInfo) :=
  if m.defaultID == "" then .error .noDefaultConfigured
  else .ok (lookupCluster m.clusters m.defaultID)

/-- `ManagerWithDB.ListClusters` (manager_db.go lines 601-611). -/
def ListClusters (m : ManagerState) : List ClusterInfo :=
  m.clusters

/-- `ManagerWithDB.SetDefaultCluster` (manager_db.go lines 614-643).
The records are pointers stored in the map, so the in-place flag mutations
become keyed updates of the list. -/
def SetDefaultCluster (s : SystemState) (clusterID : String)
    (saveOldOk saveNewOk : Bool) : Option ClusterError × SystemState :=
  match lookupCluster s.mem.clusters clusterID with
  | none => (some .notFound, s)
  | some _ =>
    -- clear the previous default (if the pointer names a live record)
    let step1 : List ClusterInfo × DB :=
      if s.mem.defaultID == "" then (s.mem.clusters, s.db)
      else
        match lookupCluster s.mem.clusters s.mem.defaultID with
        | none => (s.mem.clusters, s.db)
        | some oldDefault =>
          let old1 := { oldDefault with IsDefault := false }
          (mapAssign s.mem.clusters old1,
           logged s.db (saveClusterToDB s.db old1
             (old1.ID == "in-cluster") saveOldOk))
    let clusters1 := step1.1
    -- `cluster.IsDefault = true` on the pointer held in the map
    let clusters2 := clusters1.map
      (fun c => if c.ID == clusterID then { c with IsDefault := true } else c)
    let db2 :=
      match lookupCluster clusters2 clusterID with
      | some c =>
        logged step1.2 (saveClusterToDB step1.2 c (c.ID == "in-cluster") saveNewOk)
      | none => step1.2
    (none, ⟨⟨clusters2, clusterID⟩, db2⟩)

/-- `ManagerWithDB.UpdateClusterLabels` (manager_db.go lines 646-664). -/
def UpdateClusterLabels (s : SystemState) (clusterID : String)
    (labels : List (String × String)) (now : Nat) (saveOk : Bool) :
    Option ClusterError × SystemState :=
  match lookupCluster s.mem.clusters clusterID with
  | none => (some .notFound, s)
  | some cluster =>
    let c1 := { cluster with Labels := labels, UpdatedAt := now }
    let clusters1 := mapAssign s.mem.clusters c1
    let db1 := logged s.db
      (saveClusterToDB s.db c1 (c1.ID == "in-cluster") saveOk)
    (none, ⟨⟨clusters1, s.mem.defaultID⟩, db1⟩)

/-- `ManagerWithDB.UpdateClusterPrometheus` (manager_db.go lines 677-700).
Unlike the other mutators this one returns the persistence error to the
caller — after the in-memory mutation has already been applied. -/
def UpdateClusterPrometheus (s : SystemState) (clusterID url username
    password : String) (enabled : Bool) (now : Nat) (updOk : Bool) :
    Option ClusterError × SystemState :=
  match lookupCluster s.mem.clusters clusterID with
  | none => (some .notFound, s)
  | some cluster =>
    let c1 := { cluster with
      PrometheusURL := url,
      PrometheusUsername := username,
      PrometheusPassword := password,
      PrometheusEnabled := enabled,
      UpdatedAt := now }
    let clusters1 := mapAssign s.mem.clusters c1
    match repoUpdatePrometheusConfig s.db clusterID url username password
        enabled updOk with
    | .ok db1 => (none, ⟨⟨clusters1, s.mem.defaultID⟩, db1⟩)
    | .error _ => (some .persistenceFailed, ⟨⟨clusters1, s.mem.defaultID⟩, s.db⟩)

/-- `ManagerWithDB.modelToClusterInfo` (manager_db.go lines 366-416):
convert a database row to an in-memory record.  Whether the client pointer
can be rebuilt (in-cluster config, or re-resolving the stored context from a
local kubeconfig) depends on the runtime environment, abstracted by the
`hasClient` argument.  The Go function never returns a non-nil error. -/
def modelToClusterInfo (model : ClusterModel) (hasClient : Bool) :
    ClusterInfo :=
  { ID := model.ID, Name := model.Name, Description := model.Description,
    Server := model.Server, Version := model.Version,
    Status := model.Status, Context := model.Context,
    Labels := model.Labels, CreatedAt := model.CreatedAt,
    UpdatedAt := model.UpdatedAt, LastCheck := model.LastCheck,
    IsDefault := model.IsDefault, Client := hasClient,
    KubeconfigPath := model.KubeconfigPath,
    KubeconfigContent := model.KubeconfigContent,
    PrometheusURL := model.PrometheusURL,
    PrometheusUsername := model.PrometheusUsername,
    PrometheusPassword := model.PrometheusPassword,
    PrometheusEnabled := model.PrometheusEnabled }

/-- One iteration of the loop in `ManagerWithDB.loadClustersFromDB`
(manager_db.go lines 90-105): insert the converted record and move the
default pointer onto it when the row is flagged default. -/
def loadClusterStep (m : ManagerState) (model : ClusterModel)
    (hasClient : Bool) : ManagerState :=
  let info := modelToClusterInfo model hasClient
  { clusters := mapAssign m.clusters info,
    defaultID := if model.IsDefault then info.ID else m.defaultID }

/-- `ManagerWithDB.loadClustersFromDB` (discovery stage 1, manager_db.go
lines 82-109): fold the loop body over all live rows.  `hasClient` gives the
environment-dependent client-reconstruction outcome per row id. -/
def loadClustersFromDB (m : ManagerState) (db : DB)
    (hasClient : String → Bool) : ManagerState :=
  (repoGetAll db).foldl
    (fun st model => loadClusterStep st model (hasClient model.ID)) m

/-- Environment for `ManagerWithDB.registerInCluster`: whether
`rest.InClusterConfig` succeeds, the config host, whether the client can be
built, and the optional version-probe result. -/
structure InClusterEnv where
  detected : Bool
  host : String
  clientOk : Bool
  version : Option String
deriving DecidableEq

/-- `ManagerWithDB.registerInCluster` (discovery stage 2, manager_db.go
lines 112-171).  The new record is marked default when `m.defaultID == ""`
at insertion time. -/
def registerInCluster (s : SystemState) (env : InClusterEnv) (now : Nat)
    (dbOk : Bool) : Option ClusterError × SystemState :=
  if !env.detected then (none, s)
  else
    let clusterID := "in-cluster"
    if (lookupCluster s.mem.clusters clusterID).isSome then (none, s)
    else if !env.clientOk then (some .connectionFailed, s)
    else
      let info : ClusterInfo :=
        { ID := clusterID, Name := "当前集群 (In-Cluster)",
          Description := "运行在集群内部的配置", Server := env.host,
          Version := env.version.getD "", Status := ClusterStatusUnknown,
          Client := true, Context := "", Labels := [],
          CreatedAt := now, UpdatedAt := now, LastCheck := 0,
          IsDefault := false, KubeconfigPath := "", KubeconfigContent := "",
          PrometheusURL := "", PrometheusUsername := "",
          PrometheusPassword := "", PrometheusEnabled := false }
      let isDef := s.mem.defaultID == ""
      let info1 := if isDef then { info with IsDefault := true } else info
      let clusters1 := mapAssign s.mem.clusters info1
      let defaultID1 := if isDef then clusterID else s.mem.defaultID
      let db1 := logged s.db (saveClusterToDB s.db info1 true dbOk)
      (none, ⟨⟨clusters1, defaultID1⟩, db1⟩)

/-- One kubeconfig context encountered by discovery stage 3, with the
outcomes of its external calls (`loadKubeconfigFile`, manager_db.go lines
217-294). -/
structure KubeContext where
  contextName : String
  clusterName : String
  clusterExists : Bool
  server : String
  cfgOk : Bool
  clientOk : Bool
  version : Option String
  fileBase : String
  now : Nat
  dbOk : Bool
deriving DecidableEq

/-- One iteration of the context loop of `loadKubeconfigFile`: dedup on the
derived id `kubeconfig-<context>`, skip on any client failure, otherwise
insert (defaulting when `m.defaultID == ""`) and persist. -/
def loadKubeconfigContext (s : SystemState) (ctx : KubeContext) : SystemState :=
  if !ctx.clusterExists then s
  else
    let clusterID := "kubeconfig-" ++ ctx.contextName
    if (lookupCluster s.mem.clusters clusterID).isSome then s
    else if !ctx.cfgOk then s
    else if !ctx.clientOk then s
    else
      let info : ClusterInfo :=
        { ID := clusterID,
          Name := ctx.clusterName ++ " (" ++ ctx.contextName ++ ")",
          Description := "从 " ++ ctx.fileBase ++ " 加载的集群",
          Server := ctx.server, Version := ctx.version.getD "",
          Status := ClusterStatusUnknown, Client := true,
          Context := ctx.contextName, Labels := [],
          CreatedAt := ctx.now, UpdatedAt := ctx.now, LastCheck := 0,
          IsDefault := false, KubeconfigPath := "", KubeconfigContent := "",
          PrometheusURL := "", PrometheusUsername := "",
          PrometheusPassword := "", PrometheusEnabled := false }
      let isDef := s.mem.defaultID == ""
      let info1 := if isDef then { info with IsDefault := true } else info
      let clusters1 := mapAssign s.mem.clusters info1
      let defaultID1 := if isDef then clusterID else s.mem.defaultID
      let db1 := logged s.db (saveClusterToDB s.db info1 false dbOk)
      ⟨⟨clusters1, defaultID1⟩, db1⟩
where dbOk := ctx.dbOk

/-- `ManagerWithDB.scanClustersInDir` (discovery stage 3, manager_db.go
lines 174-214): process every context of every readable file in the
kubeconfig directory. -/
def scanClustersInDir (s : SystemState) (ctxs : List KubeContext) :
    SystemState :=
  ctxs.foldl loadKubeconfigContext s

/-- `ManagerWithDB.ensureDefaultCluster` (discovery stage 4, manager_db.go
lines 297-327): if no default pointer is set, elect the first record (if
any), flag it, and persist the change. -/
def ensureDefaultCluster (s : SystemState) (saveOk : Bool) :
    Option ClusterError × SystemState :=
  if !(s.mem.defaultID == "") then (none, s)
  else
    match s.mem.clusters with
    | [] => (some .noClusterAvailable, s)
    | c :: rest =>
      let c1 := { c with IsDefault := true }
      let db1 := logged s.db
        (saveClusterToDB s.db c1 (c1.ID == "in-cluster") saveOk)
      (none, ⟨⟨c1 :: rest, c1.ID⟩, db1⟩)

/-- Environment of one whole `ManagerWithDB.Initialize` run. -/
structure InitEnv where
  hasClient : String → Bool
  inCluster : InClusterEnv
  nowInCluster : Nat
  dbOkInCluster : Bool
  contexts : List KubeContext
  saveOkEnsure : Bool

/-- `ManagerWithDB.Initialize` (manager_db.go lines 51-79): the four
discovery stages run in order over a fresh manager (`NewManagerWithDB`
starts with an empty map and an empty default pointer); each stage's error
is only logged. -/
def Initialize (db : DB) (env : InitEnv) : SystemState :=
  let s0 : SystemState := ⟨⟨[], ""⟩, db⟩
  let s1 : SystemState := ⟨loadClustersFromDB s0.mem s0.db env.hasClient, s0.db⟩
  let s2 := (registerInCluster s1 env.inCluster env.nowInCluster env.dbOkInCluster).2
  let s3 := scanClustersInDir s2 env.contexts
  (ensureDefaultCluster s3 env.saveOkEnsure).2

/-- A node's relevant status conditions, from the `corev1.Node` items
inspected by the health checker. -/
structure NodeCondition where
  type : String
  status : String
deriving DecidableEq

/-- One node as seen by the probe: its condition list. -/
structure Node where
  conditions : List NodeCondition
deriving DecidableEq

/-- Outcome of the external calls of one health probe: the version request
(`ServerVersion`) may fail, the node listing may fail, or the node items are
returned. -/
inductive ProbeResult
  | versionError
  | nodesError
  | nodesOk (items : List Node)
deriving DecidableEq

/-- The ready-node scan of `HealthChecker.checkClusterHealth` (health.go):
the double loop with breaks is `any` over nodes of `any` over conditions. -/
def hasReadyNode (items : List Node) : Bool :=
  items.any (fun node => node.conditions.any
    (fun condition => condition.type == "Ready" && condition.status == "True"))

/-- `HealthChecker.updateClusterStatus`: write the status and bump
`UpdatedAt` only when the value actually changes. -/
def updateClusterStatus (c : ClusterInfo) (status : ClusterStatus)
    (now : Nat) : ClusterInfo :=
  if !(c.Status == status) then
    { c with Status := status, UpdatedAt := now }
  else c

/-- `HealthChecker.checkClusterHealth`: the per-record probe.  A record with
a nil client is set `Unreachable` immediately — without touching
`LastCheck`; otherwise `LastCheck` is written after the version call, and
the status follows the probe outcome (version error → `Unreachable`, node
listing error → `Unhealthy`, otherwise `Healthy` iff some node has a `Ready`
condition with status `True`). -/
def checkClusterHealth (c : ClusterInfo) (r : ProbeResult) (now : Nat) :
    ClusterInfo :=
  if !c.Client then updateClusterStatus c ClusterStatusUnreachable now
  else
    let c1 := { c with LastCheck := now }
    match r with
    | .versionError => updateClusterStatus c1 ClusterStatusUnreachable now
    | .nodesError => updateClusterStatus c1 ClusterStatusUnhealthy now
    | .nodesOk items =>
      if hasReadyNode items then
        updateClusterStatus c1 ClusterStatusHealthy now
      else
        updateClusterStatus c1 ClusterStatusUnhealthy now

/-- `HealthChecker.checkAllClusters`: one probe cycle over the listed
records; each probe mutates its record in place through the registry map.
`outcome` gives the probe result per record id. -/
def checkAllClusters (m : ManagerState) (outcome : String → ProbeResult)
    (now : Nat) : ManagerState :=
  { clusters := m.clusters.map (fun c => checkClusterHealth c (outcome c.ID) now),
    defaultID := m.defaultID }

/-- One transition of the registry system: any public `ManagerWithDB`
operation, any discovery stage, or one health-monitor probe cycle, with
arbitrary inputs and environment outcomes. -/
inductive RegStep : SystemState → SystemState → Prop
  | add (s : SystemState) (name description : String)
      (labels : List (String × String)) (env : ConnEnv) (now : Nat)
      (dbOk : Bool) :
      RegStep s (AddCluster s name description labels env now dbOk).2
  | remove (s : SystemState) (clusterID : String) (delOk saveOk : Bool) :
      RegStep s (RemoveCluster s clusterID delOk saveOk).2
  | setDefault (s : SystemState) (clusterID : String)
      (saveOldOk saveNewOk : Bool) :
      RegStep s (SetDefaultCluster s clusterID saveOldOk saveNewOk).2
  | updateLabels (s : SystemState) (clusterID : String)
      (labels : List (String × String)) (now : Nat) (saveOk : Bool) :
      RegStep s (UpdateClusterLabels s clusterID labels now saveOk).2
  | updatePrometheus (s : SystemState) (clusterID url username
      password : String) (enabled : Bool) (now : Nat) (updOk : Bool) :
      RegStep s (UpdateClusterPrometheus s clusterID url username password
        enabled now updOk).2
  | loadFromDB (s : SystemState) (hasClient : String → Bool) :
      RegStep s ⟨loadClustersFromDB s.mem s.db hasClient, s.db⟩
  | register (s : SystemState) (env : InClusterEnv) (now : Nat) (dbOk : Bool) :
      RegStep s (registerInCluster s env now dbOk).2
  | scan (s : SystemState) (ctxs : List KubeContext) :
      RegStep s (scanClustersInDir s ctxs)
  | ensureDefault (s : SystemState) (saveOk : Bool) :
      RegStep s (ensureDefaultCluster s saveOk).2
  | healthCycle (s : SystemState) (outcome : String → ProbeResult) (now : Nat) :
      RegStep s ⟨checkAllClusters s.mem outcome now, s.db⟩

/-! ### Helper lemmas about the map model -/

theorem lookupCluster_isSome_iff (cs : List ClusterInfo) (id : String) :
    (lookupCluster cs id).isSome ↔ ∃ x ∈ cs, x.ID = id := by
  unfold lookupCluster
  rw [List.find?_isSome]
  simp

theorem lookupCluster_eq_none_iff (cs : List ClusterInfo) (id : String) :
    lookupCluster cs id = none ↔ ∀ x ∈ cs, x.ID ≠ id := by
  unfold lookupCluster
  rw [List.find?_eq_none]
  simp

theorem find?_replace_of_any (cs : List ClusterInfo) (c : ClusterInfo)
    (h : cs.any (fun x => x.ID == c.ID) = true) :
    (cs.map (fun x => if x.ID == c.ID then c else x)).find?
      (fun x => x.ID == c.ID) = some c := by
  induction cs with
  | nil => simp at h
  | cons y ys ih =>
    rcases hy : (y.ID == c.ID) with _ | _
    · simp only [List.map_cons, hy, Bool.false_eq_true, if_false]
      rw [List.find?_cons_of_neg _ (by simp [hy])]
      exact ih (by simpa [hy] using h)
    · simp only [List.map_cons, hy, if_true]
      exact List.find?_cons_of_pos _ (by simp)

theorem lookupCluster_mapAssign_self (cs : List ClusterInfo) (c : ClusterInfo) :
    lookupCluster (mapAssign cs c) c.ID = some c := by
  unfold mapAssign lookupCluster
  rcases ha : cs.any (fun x => x.ID == c.ID) with _ | _
  · simp only [ha, Bool.false_eq_true, if_false]
    rw [List.find?_append]
    have h0 : cs.find? (fun x => x.ID == c.ID) = none := by
      rw [List.find?_eq_none]
      intro x hx
      rw [List.any_eq_false] at ha
      simpa using ha x hx
    rw [h0]
    simp [List.find?]
  · simp only [ha, if_true]
    exact find?_replace_of_any cs c ha

theorem find?_replace_of_ne (cs : List ClusterInfo) (c : ClusterInfo)
    (id : String) (h : id ≠ c.ID) :
    (cs.map (fun x => if x.ID == c.ID then c else x)).find?
      (fun x => x.ID == id) = cs.find? (fun x => x.ID == id) := by
  induction cs with
  | nil => rfl
  | cons y ys ih =>
    rcases hy : (y.ID == c.ID) with _ | _
    · simp only [List.map_cons, hy, Bool.false_eq_true, if_false]
      rcases hz : (y.ID == id) with _ | _
      · rw [List.find?_cons_of_neg _ (by simp [hz]),
          List.find?_cons_of_neg _ (by simp [hz]), ih]
      · rw [List.find?_cons_of_pos _ (by simp [hz]),
          List.find?_cons_of_pos _ (by simp [hz])]
    · have hyid : y.ID = c.ID := by simpa using hy
      simp only [List.map_cons, hy, if_true]
      rw [List.find?_cons_of_neg _ (by simp only [beq_iff_eq]; exact fun hh => h hh.symm),
        List.find?_cons_of_neg _ (by simp only [beq_iff_eq, hyid]; exact fun hh => h hh.symm), ih]

theorem lookupCluster_mapAssign_ne (cs : List ClusterInfo) (c : ClusterInfo)
    (id : String) (h : id ≠ c.ID) :
    lookupCluster (mapAssign cs c) id = lookupCluster cs id := by
  unfold mapAssign lookupCluster
  rcases ha : cs.any (fun x => x.ID == c.ID) with _ | _
  · simp only [ha, Bool.false_eq_true, if_false]
    rw [List.find?_append]
    rcases hf : cs.find? (fun x => x.ID == id) with _ | x
    · simp only [hf, Option.none_or]
      rw [List.find?_cons_of_neg _ (by simp only [beq_iff_eq]; exact fun hh => h hh.symm)]
      rfl
    · simp [hf]
  · simp only [ha, if_true]
    exact find?_replace_of_ne cs c id h

theorem isSome_lookupCluster_mapAssign (cs : List ClusterInfo)
    (c : ClusterInfo) (id : String)
    (h : (lookupCluster cs id).isSome) :
    (lookupCluster (mapAssign cs c) id).isSome := by
  by_cases hid : id = c.ID
  · subst hid
    rw [lookupCluster_mapAssign_self]
    rfl
  · rw [lookupCluster_mapAssign_ne cs c id hid]
    exact h

theorem lookupCluster_map_id_preserving (cs : List ClusterInfo)
    (f : ClusterInfo → ClusterInfo) (hf : ∀ c, (f c).ID = c.ID) (id : String) :
    lookupCluster (cs.map f) id = (lookupCluster cs id).map f := by
  unfold lookupCluster
  induction cs with
  | nil => rfl
  | cons y ys ih =>
    rw [List.map_cons, List.find?_cons, List.find?_cons]
    rcases hy : (y.ID == id) with _ | _
    · simp only [hf, hy]
      exact ih
    · simp only [hf, hy]
      rfl

theorem lookupCluster_mapDelete_ne (cs : List ClusterInfo) (d id : String)
    (h : id ≠ d) :
    lookupCluster (mapDelete cs d) id = lookupCluster cs id := by
  unfold mapDelete lookupCluster
  induction cs with
  | nil => rfl
  | cons y ys ih =>
    by_cases hy : y.ID = d
    · rw [List.filter_cons_of_neg (by simp [hy]), ih,
        List.find?_cons_of_neg _ (by simp [hy]; exact fun hh => h hh.symm)]
    · rw [List.filter_cons_of_pos (by simp [hy]), List.find?_cons, List.find?_cons]
      rcases hz : (y.ID == id) with _ | _
      · simp only [hz]
        exact ih
      · simp only [hz]

theorem ids_mapAssign_of_present (cs : List ClusterInfo) (c : ClusterInfo)
    (h : cs.any (fun x => x.ID == c.ID) = true) :
    (mapAssign cs c).map (fun x => x.ID) = cs.map (fun x => x.ID) := by
  unfold mapAssign
  rw [if_pos h, List.map_map]
  apply List.map_congr_left
  intro x _
  by_cases hx : x.ID = c.ID
  · simp [hx]
  · simp [hx]

theorem ids_mapAssign_of_absent (cs : List ClusterInfo) (c : ClusterInfo)
    (h : cs.any (fun x => x.ID == c.ID) = false) :
    (mapAssign cs c).map (fun x => x.ID) = cs.map (fun x => x.ID) ++ [c.ID] := by
  unfold mapAssign
  rw [if_neg (by simp [h]), List.map_append]
  rfl

theorem nodup_ids_mapAssign (cs : List ClusterInfo) (c : ClusterInfo)
    (h : (cs.map (fun x => x.ID)).Nodup) :
    ((mapAssign cs c).map (fun x => x.ID)).Nodup := by
  rcases ha : cs.any (fun x => x.ID == c.ID) with _ | _
  · rw [ids_mapAssign_of_absent cs c ha, List.nodup_append]
    refine ⟨h, List.nodup_singleton _, ?_⟩
    intro x hx
    rw [List.any_eq_false] at ha
    simp only [List.mem_map] at hx
    obtain ⟨y, hy, hyx⟩ := hx
    simp only [List.mem_singleton]
    intro hc
    have h2 := ha y hy
    simp only [beq_iff_eq] at h2
    exact h2 (hyx.trans hc)
  · rw [ids_mapAssign_of_present cs c ha]
    exact h

theorem mem_mapAssign (cs : List ClusterInfo) (c x : ClusterInfo)
    (hx : x ∈ mapAssign cs c) : x = c ∨ (x ∈ cs ∧ x.ID ≠ c.ID) := by
  unfold mapAssign at hx
  split at hx
  · rw [List.mem_map] at hx
    obtain ⟨y, hy, hyx⟩ := hx
    by_cases h : y.ID = c.ID
    · left
      rw [if_pos (by simpa using h)] at hyx
      exact hyx.symm
    · right
      rw [if_neg (by simpa using h)] at hyx
      exact ⟨hyx ▸ hy, hyx ▸ h⟩
  · rename_i hany
    rw [List.mem_append, List.mem_singleton] at hx
    rcases hx with hx | hx
    · right
      refine ⟨hx, ?_⟩
      rw [Bool.not_eq_true, List.any_eq_false] at hany
      simpa using hany x hx
    · left; exact hx

theorem countDefaults_congr (cs : List ClusterInfo) (dID : String)
    (h : ∀ c ∈ cs, c.IsDefault = (c.ID == dID)) :
    countDefaults cs = (cs.filter (fun c => c.ID == dID)).length := by
  unfold countDefaults
  congr 1
  exact List.filter_congr h

theorem length_filter_id_of_absent (cs : List ClusterInfo) (dID : String)
    (h : ∀ c ∈ cs, c.ID ≠ dID) :
    (cs.filter (fun c => c.ID == dID)).length = 0 := by
  rw [List.length_eq_zero, List.filter_eq_nil_iff]
  intro c hc
  simp [h c hc]

theorem length_filter_id_of_present (cs : List ClusterInfo) (dID : String)
    (hnd : (cs.map (fun x => x.ID)).Nodup)
    (h : ∃ c ∈ cs, c.ID = dID) :
    (cs.filter (fun c => c.ID == dID)).length = 1 := by
  induction cs with
  | nil => simp at h
  | cons y ys ih =>
    rw [List.map_cons, List.nodup_cons] at hnd
    by_cases hy : y.ID = dID
    · rw [List.filter_cons_of_pos (by simp [hy])]
      have h0 : (ys.filter (fun c => c.ID == dID)).length = 0 := by
        apply length_filter_id_of_absent
        intro c hc hcd
        exact hnd.1 (by rw [List.mem_map]; exact ⟨c, hc, hcd.trans hy.symm⟩)
      simp [h0]
    · rw [List.filter_cons_of_neg (by simp [hy])]
      apply ih hnd.2
      rcases h with ⟨c, hc, hcd⟩
      rcases List.mem_cons.1 hc with rfl | hc2
      · exact absurd hcd hy
      · exact ⟨c, hc2, hcd⟩

/-! ### Health-probe lemmas and claims C2, C3 -/

theorem updateClusterStatus_cases (c : ClusterInfo) (st : ClusterStatus)
    (now : Nat) :
    (c.Status = st ∧ updateClusterStatus c st now = c) ∨
    (c.Status ≠ st ∧
      updateClusterStatus c st now = { c with Status := st, UpdatedAt := now }) := by
  unfold updateClusterStatus
  rcases h : (c.Status == st) with _ | _
  · right
    exact ⟨by simpa using h, by simp [h]⟩
  · left
    exact ⟨by simpa using h, by simp [h]⟩

theorem checkClusterHealth_eq_update (c : ClusterInfo) (r : ProbeResult)
    (now : Nat) :
    ∃ st, checkClusterHealth c r now =
      updateClusterStatus (if c.Client then { c with LastCheck := now } else c)
        st now := by
  unfold checkClusterHealth
  rcases hc : c.Client with _ | _
  · exact ⟨ClusterStatusUnreachable, by simp [hc]⟩
  · cases r with
    | versionError => exact ⟨ClusterStatusUnreachable, by simp [hc]⟩
    | nodesError => exact ⟨ClusterStatusUnhealthy, by simp [hc]⟩
    | nodesOk items =>
      rcases hr : hasReadyNode items with _ | _
      · exact ⟨ClusterStatusUnhealthy, by simp [hc, hr]⟩
      · exact ⟨ClusterStatusHealthy, by simp [hc, hr]⟩

/-- C2 (amended): the per-record probe writes `lastCheck := now` exactly when
the record has a usable client; when `Client` is nil the probe returns right
after setting the status to Unreachable and `lastCheck` keeps its old
value — for every probe outcome. -/
theorem probe_lastCheck_iff_client (c : ClusterInfo) (r : ProbeResult)
    (now : Nat) :
    (checkClusterHealth c r now).LastCheck =
      if c.Client then now else c.LastCheck := by
  obtain ⟨st, hst⟩ := checkClusterHealth_eq_update c r now
  rw [hst]
  rcases updateClusterStatus_cases (if c.Client then { c with LastCheck := now } else c) st now with
    ⟨_, h2⟩ | ⟨_, h2⟩ <;>
  · rw [h2]
    rcases c.Client with _ | _ <;> simp

/-- A concrete record with no usable client (`Client == nil` in Go), as
produced e.g. by loading a stored row whose context cannot be resolved. -/
def clientlessRecord : ClusterInfo :=
  { ID := "kubeconfig-dev", Name := "dev", Description := "", Server := "https://h",
    Version := "", Status := ClusterStatusUnknown, Client := false,
    Context := "dev", Labels := [], CreatedAt := 0, UpdatedAt := 0,
    LastCheck := 0, IsDefault := false, KubeconfigPath := "",
    KubeconfigContent := "", PrometheusURL := "", PrometheusUsername := "",
    PrometheusPassword := "", PrometheusEnabled := false }

/-- C2 counterexample: probing a record with no usable client at time 5 does
NOT update its `lastCheck` (it stays 0), contradicting the claim that every
probe outcome updates `lastCheck`. -/
theorem probe_lastCheck_noClient_counterexample :
    clientlessRecord.Client = false ∧
    clientlessRecord.LastCheck = 0 ∧
    (checkClusterHealth clientlessRecord ProbeResult.versionError 5).LastCheck = 0 ∧
    (checkClusterHealth clientlessRecord ProbeResult.versionError 5).LastCheck ≠ 5 := by
  refine ⟨rfl, rfl, ?_, ?_⟩ <;> decide

theorem updateClusterStatus_frame (d : ClusterInfo) (st : ClusterStatus)
    (now : Nat) :
    ((updateClusterStatus d st now).ID = d.ID ∧
     (updateClusterStatus d st now).Name = d.Name ∧
     (updateClusterStatus d st now).Description = d.Description ∧
     (updateClusterStatus d st now).Server = d.Server ∧
     (updateClusterStatus d st now).Version = d.Version ∧
     (updateClusterStatus d st now).Client = d.Client ∧
     (updateClusterStatus d st now).Context = d.Context ∧
     (updateClusterStatus d st now).Labels = d.Labels ∧
     (updateClusterStatus d st now).CreatedAt = d.CreatedAt ∧
     (updateClusterStatus d st now).IsDefault = d.IsDefault ∧
     (updateClusterStatus d st now).KubeconfigPath = d.KubeconfigPath ∧
     (updateClusterStatus d st now).KubeconfigContent = d.KubeconfigContent ∧
     (updateClusterStatus d st now).PrometheusURL = d.PrometheusURL ∧
     (updateClusterStatus d st now).PrometheusUsername = d.PrometheusUsername ∧
     (updateClusterStatus d st now).PrometheusPassword = d.PrometheusPassword ∧
     (updateClusterStatus d st now).PrometheusEnabled = d.PrometheusEnabled) ∧
    ((updateClusterStatus d st now).UpdatedAt = d.UpdatedAt ∨
      ((updateClusterStatus d st now).Status ≠ d.Status ∧
       (updateClusterStatus d st now).UpdatedAt = now)) := by
  rcases updateClusterStatus_cases d st now with ⟨h1, h2⟩ | ⟨h1, h2⟩ <;> rw [h2]
  · exact ⟨⟨rfl, rfl, rfl, rfl, rfl, rfl, rfl, rfl, rfl, rfl, rfl, rfl, rfl,
      rfl, rfl, rfl⟩, Or.inl rfl⟩
  · exact ⟨⟨rfl, rfl, rfl, rfl, rfl, rfl, rfl, rfl, rfl, rfl, rfl, rfl, rfl,
      rfl, rfl, rfl⟩, Or.inr ⟨fun hh => h1 hh.symm, rfl⟩⟩

/-- C3 (amended): the per-record probe leaves every field of the record
unchanged except `Status`, `LastCheck` (written iff the client is usable, by
`probe_lastCheck_iff_client`), and `UpdatedAt`, which is bumped to `now`
exactly when the status actually changes. -/
theorem probe_frame (c : ClusterInfo) (r : ProbeResult) (now : Nat) :
    ((checkClusterHealth c r now).ID = c.ID ∧
     (checkClusterHealth c r now).Name = c.Name ∧
     (checkClusterHealth c r now).Description = c.Description ∧
     (checkClusterHealth c r now).Server = c.Server ∧
     (checkClusterHealth c r now).Version = c.Version ∧
     (checkClusterHealth c r now).Client = c.Client ∧
     (checkClusterHealth c r now).Context = c.Context ∧
     (checkClusterHealth c r now).Labels = c.Labels ∧
     (checkClusterHealth c r now).CreatedAt = c.CreatedAt ∧
     (checkClusterHealth c r now).IsDefault = c.IsDefault ∧
     (checkClusterHealth c r now).KubeconfigPath = c.KubeconfigPath ∧
     (checkClusterHealth c r now).KubeconfigContent = c.KubeconfigContent ∧
     (checkClusterHealth c r now).PrometheusURL = c.PrometheusURL ∧
     (checkClusterHealth c r now).PrometheusUsername = c.PrometheusUsername ∧
     (checkClusterHealth c r now).PrometheusPassword = c.PrometheusPassword ∧
     (checkClusterHealth c r now).PrometheusEnabled = c.PrometheusEnabled) ∧
    ((checkClusterHealth c r now).UpdatedAt = c.UpdatedAt ∨
      ((checkClusterHealth c r now).Status ≠ c.Status ∧
       (checkClusterHealth c r now).UpdatedAt = now)) := by
  obtain ⟨st, hst⟩ := checkClusterHealth_eq_update c r now
  rw [hst]
  by_cases hc : c.Client = true
  · rw [if_pos hc]
    exact updateClusterStatus_frame { c with LastCheck := now } st now
  · rw [if_neg hc]
    exact updateClusterStatus_frame c st now

/-- C3 counterexample: a probe whose outcome changes the status also bumps
`updatedAt` (from 0 to the probe time 5), contradicting the claim that all
fields other than `status` and `lastCheck` are unchanged. -/
theorem probe_updatedAt_counterexample :
    clientlessRecord.UpdatedAt = 0 ∧
    (checkClusterHealth clientlessRecord ProbeResult.versionError 5).UpdatedAt = 5 := by
  exact ⟨rfl, by decide⟩

/-! ### Concrete fixtures used by witnesses and counterexamples -/

/-- A fully successful connection environment for `AddCluster`. -/
def okConnEnv : ConnEnv :=
  { parseOk := true, currentContext := "ctx", clientCfgOk := true,
    host := "https://h", clientOk := true, version := some "v1.30.0" }

/-- A connection environment whose client construction fails. -/
def badClientEnv : ConnEnv :=
  { parseOk := true, currentContext := "ctx", clientCfgOk := true,
    host := "https://h", clientOk := false, version := none }

/-- The empty initial system state (`NewManagerWithDB` over an empty store). -/
def emptySystem : SystemState := ⟨⟨[], ""⟩, []⟩

/-- State after one successful `AddCluster` at Unix second 5: one record
`custom-5`, the default, mirrored in the store. -/
def oneClusterSystem : SystemState :=
  (AddCluster emptySystem "A" "d" [("env", "prod")] okConnEnv 5 true).2

/-- State after a second successful `AddCluster` at Unix second 6:
records `custom-5` (default) and `custom-6`. -/
def twoClusterSystem : SystemState :=
  (AddCluster oneClusterSystem "B" "d" [] okConnEnv 6 true).2

/-! ### Claim C5: AddCluster is atomic on connection failure -/

/-- C5: whenever the kubeconfig cannot be parsed, no context resolves, the
REST config cannot be built, or the client cannot be built, `AddCluster`
returns an error and the whole state — registry map, default pointer and
persistent store — is exactly the state before the call; no record is
generated or stored. -/
theorem addCluster_failure_atomic (s : SystemState) (name description : String)
    (labels : List (String × String)) (env : ConnEnv) (now : Nat) (dbOk : Bool)
    (h : env.parseOk = false ∨ env.currentContext = "" ∨
         env.clientCfgOk = false ∨ env.clientOk = false) :
    ∃ e, AddCluster s name description labels env now dbOk = (.error e, s) := by
  unfold AddCluster
  rcases hp : env.parseOk with _ | _
  · refine ⟨.invalidKubeconfig, ?_⟩
    simp
  · rcases hcx : (env.currentContext == "") with _ | _
    · rcases hcf : env.clientCfgOk with _ | _
      · refine ⟨.clientConfigFailed, ?_⟩
        simp [hcx]
      · rcases hcl : env.clientOk with _ | _
        · refine ⟨.connectionFailed, ?_⟩
          simp [hcx]
        · exfalso
          rcases h with h | h | h | h
          · rw [hp] at h; simp at h
          · rw [h] at hcx; simp at hcx
          · rw [hcf] at h; simp at h
          · rw [hcl] at h; simp at h
    · refine ⟨.noContextFound, ?_⟩
      simp [hcx]

/-- Witness for C5 at a concrete input: adding over the empty system with a
client-construction failure errors and leaves the state untouched. -/
theorem addCluster_failure_atomic_witness :
    ∃ e, AddCluster emptySystem "A" "d" [] badClientEnv 5 true =
      (.error e, emptySystem) :=
  addCluster_failure_atomic emptySystem "A" "d" [] badClientEnv 5 true
    (Or.inr (Or.inr (Or.inr rfl)))

/-! ### Claim C4: persistence failures are (mostly) fire-and-forget -/

/-- C4 (amended): for `AddCluster`, `RemoveCluster`, `SetDefaultCluster` and
`UpdateClusterLabels` a Persistence Adapter failure changes neither the
returned value nor the final in-memory state (the mutation is kept, success
is still reported) and leaves the store untouched.  `UpdateClusterPrometheus`
also keeps the in-memory mutation and leaves the store untouched, but —
unlike the others — returns the persistence failure to the caller. -/
theorem persistence_failure_only_logged :
    (∀ s name description labels env now,
      (AddCluster s name description labels env now false).1 =
        (AddCluster s name description labels env now true).1 ∧
      (AddCluster s name description labels env now false).2.mem =
        (AddCluster s name description labels env now true).2.mem ∧
      (AddCluster s name description labels env now false).2.db = s.db) ∧
    (∀ s id,
      (RemoveCluster s id false false).1 = (RemoveCluster s id true true).1 ∧
      (RemoveCluster s id false false).2.mem =
        (RemoveCluster s id true true).2.mem ∧
      (RemoveCluster s id false false).2.db = s.db) ∧
    (∀ s id,
      (SetDefaultCluster s id false false).1 =
        (SetDefaultCluster s id true true).1 ∧
      (SetDefaultCluster s id false false).2.mem =
        (SetDefaultCluster s id true true).2.mem ∧
      (SetDefaultCluster s id false false).2.db = s.db) ∧
    (∀ s id labels now,
      (UpdateClusterLabels s id labels now false).1 =
        (UpdateClusterLabels s id labels now true).1 ∧
      (UpdateClusterLabels s id labels now false).2.mem =
        (UpdateClusterLabels s id labels now true).2.mem ∧
      (UpdateClusterLabels s id labels now false).2.db = s.db) ∧
    (∀ s id url u p e now,
      (UpdateClusterPrometheus s id url u p e now false).2.mem =
        (UpdateClusterPrometheus s id url u p e now true).2.mem ∧
      (UpdateClusterPrometheus s id url u p e now false).2.db = s.db ∧
      ((lookupCluster s.mem.clusters id).isSome →
        (UpdateClusterPrometheus s id url u p e now false).1 =
          some .persistenceFailed)) := by
  refine ⟨?_, ?_, ?_, ?_, ?_⟩
  · intro s name description labels env now
    unfold AddCluster
    rcases env.parseOk with _ | _
    · simp
    · rcases (env.currentContext == "") with _ | _ <;>
        rcases env.clientCfgOk with _ | _ <;>
        rcases env.clientOk with _ | _ <;>
        simp [logged, saveClusterToDB, repoCreate]
  · intro s id
    unfold RemoveCluster
    cases hl : lookupCluster s.mem.clusters id
    · simp
    · rcases (id == "in-cluster") with _ | _ <;>
        rcases (s.mem.defaultID == id) with _ | _ <;>
        cases mapDelete s.mem.clusters id <;>
        simp [logged, repoDelete, saveClusterToDB, repoCreate]
  · intro s id
    unfold SetDefaultCluster
    cases hl : lookupCluster s.mem.clusters id
    · simp
    · rcases (s.mem.defaultID == "") with _ | _ <;>
        [cases lookupCluster s.mem.clusters s.mem.defaultID; skip] <;>
        simp only [logged, saveClusterToDB, repoCreate, Bool.not_false,
          Bool.not_true, Bool.false_eq_true, if_false, if_true] <;>
        (repeat' split) <;>
        simp
  · intro s id labels now
    unfold UpdateClusterLabels
    cases hl : lookupCluster s.mem.clusters id <;>
      simp [logged, saveClusterToDB, repoCreate]
  · intro s id url u p e now
    unfold UpdateClusterPrometheus
    cases hl : lookupCluster s.mem.clusters id <;>
      simp [repoUpdatePrometheusConfig]

/-- Witness for C4 at concrete inputs: removing `custom-5` with a failing
adapter keeps the store unchanged (and the call still reports success),
while a Prometheus-config update with a failing adapter reports the
failure. -/
theorem persistence_failure_only_logged_witness :
    (RemoveCluster oneClusterSystem "custom-5" false false).2.db =
      oneClusterSystem.db ∧
    (UpdateClusterPrometheus oneClusterSystem "custom-5" "http://prom" "u" "pw"
      true 7 false).1 = some ClusterError.persistenceFailed := by
  refine ⟨(persistence_failure_only_logged.2.1 oneClusterSystem "custom-5").2.2, ?_⟩
  exact (persistence_failure_only_logged.2.2.2.2 oneClusterSystem "custom-5"
    "http://prom" "u" "pw" true 7).2.2 (by decide)

/-- C4 counterexample: `UpdateClusterPrometheus` (the `UpdateIntegrationConfig`
operation) does NOT return success when the Persistence Adapter fails: it
returns the persistence error — while the in-memory mutation has already been
applied and is kept. -/
theorem updatePrometheus_error_returned_counterexample :
    (UpdateClusterPrometheus oneClusterSystem "custom-5" "http://prom" "u" "pw"
        true 7 false).1 ≠ none ∧
    ((lookupCluster (UpdateClusterPrometheus oneClusterSystem "custom-5"
        "http://prom" "u" "pw" true 7 false).2.mem.clusters "custom-5").map
      (fun c => c.PrometheusURL)) = some "http://prom" := by
  constructor <;> decide

/-! ### Claim C6: when stage 2 marks the in-cluster record default -/

/-- C6 (amended): in discovery stage 2, when the process runs inside a
cluster, no `in-cluster` record exists yet and the client can be built, the
inserted in-cluster record is marked default if and only if the registry's
default pointer was empty before the stage — which holds in particular, but
not only, when the registry was previously empty. -/
theorem registerInCluster_default_iff_pointer_empty (s : SystemState)
    (env : InClusterEnv) (now : Nat) (dbOk : Bool)
    (hdet : env.detected = true)
    (hnew : lookupCluster s.mem.clusters "in-cluster" = none)
    (hcli : env.clientOk = true) :
    ∃ info, lookupCluster (registerInCluster s env now dbOk).2.mem.clusters
        "in-cluster" = some info ∧
      info.IsDefault = (s.mem.defaultID == "") ∧
      (registerInCluster s env now dbOk).2.mem.defaultID =
        (if s.mem.defaultID == "" then "in-cluster" else s.mem.defaultID) := by
  unfold registerInCluster
  simp only [hdet, hnew, hcli, Bool.not_true, Bool.false_eq_true, if_false,
    Option.isSome_none]
  rcases hd : (s.mem.defaultID == "") with _ | _ <;>
    simp only [hd, Bool.false_eq_true, if_false, if_true] <;>
    refine ⟨_, lookupCluster_mapAssign_self s.mem.clusters _, ?_, ?_⟩ <;> simp

/-- A stored row for an external cluster that is not flagged default, as left
behind e.g. when the previous default's row was removed but the election
write for this row failed. -/
def plainRow : ClusterModel :=
  { ID := "custom-99", Name := "x", Description := "", Server := "https://db",
    Version := "", Status := "unknown", Context := "", Labels := [],
    IsDefault := false, IsInCluster := false, KubeconfigPath := "",
    KubeconfigContent := "", PrometheusURL := "", PrometheusUsername := "",
    PrometheusPassword := "", PrometheusEnabled := false, LastCheck := 0,
    CreatedAt := 0, UpdatedAt := 0, DeletedAt := false }

/-- Registry state after discovery stage 1 over a store holding that single
non-default row: the registry is non-empty but no default pointer is set. -/
def loadedNoDefaultSystem : SystemState :=
  ⟨loadClustersFromDB ⟨[], ""⟩ [plainRow] (fun _ => false), [plainRow]⟩

/-- A detected in-cluster environment with a working client. -/
def okInClusterEnv : InClusterEnv :=
  { detected := true, host := "https://in", clientOk := true,
    version := some "v1.30.0" }

/-- C6 counterexample: starting from a non-empty registry (one record loaded
from the store, not default), stage 2 still marks the new in-cluster record
default — the claim's "if and only if the registry was previously empty" is
false; the code tests the default pointer, not emptiness. -/
theorem registerInCluster_default_on_nonempty_counterexample :
    loadedNoDefaultSystem.mem.clusters ≠ [] ∧
    ((lookupCluster (registerInCluster loadedNoDefaultSystem okInClusterEnv
        9 true).2.mem.clusters "in-cluster").map (fun c => c.IsDefault)) =
      some true := by
  constructor <;> decide

/-- Witness for C6 at a concrete input: over the empty registry the inserted
in-cluster record is marked default and becomes the default pointer. -/
theorem registerInCluster_default_iff_pointer_empty_witness :
    ∃ info, lookupCluster
        (registerInCluster emptySystem okInClusterEnv 9 true).2.mem.clusters
        "in-cluster" = some info ∧
      info.IsDefault = (emptySystem.mem.defaultID == "") ∧
      (registerInCluster emptySystem okInClusterEnv 9 true).2.mem.defaultID =
        (if emptySystem.mem.defaultID == "" then "in-cluster"
         else emptySystem.mem.defaultID) :=
  registerInCluster_default_iff_pointer_empty emptySystem okInClusterEnv 9 true
    rfl (by decide) rfl

/-! ### Claim C7: default reassignment on removal and the store -/

/-- C7: with records A = `custom-5` (default) and B = `custom-6` present in
memory and in the store, `RemoveCluster("custom-5")` succeeds and B becomes
the default in memory (`isDefault` false → true, default pointer moved) — but
the store is NOT updated: the persistence write for B goes through
`repo.Create`, a plain INSERT that collides with B's existing primary key,
fails, and is only logged, so B's stored row keeps `is_default = false`.
This contradicts the claim's "reflected in the persisted store" (and the
code's own intent, its comment says "update the database"). -/
theorem removeCluster_reassigns_memory_not_store :
    ((RemoveCluster twoClusterSystem "custom-5" true true).1 = none) ∧
    ((lookupCluster twoClusterSystem.mem.clusters "custom-6").map
        (fun c => c.IsDefault) = some false) ∧
    ((lookupCluster (RemoveCluster twoClusterSystem "custom-5" true
        true).2.mem.clusters "custom-6").map (fun c => c.IsDefault) =
      some true) ∧
    ((RemoveCluster twoClusterSystem "custom-5" true true).2.mem.defaultID =
      "custom-6") ∧
    ((twoClusterSystem.db.filter (fun r => r.ID == "custom-6" &&
        !r.DeletedAt)).map (fun r => r.IsDefault) = [false]) ∧
    (((RemoveCluster twoClusterSystem "custom-5" true true).2.db.filter
        (fun r => r.ID == "custom-6" && !r.DeletedAt)).map
      (fun r => r.IsDefault) = [false]) := by
  refine ⟨?_, ?_, ?_, ?_, ?_, ?_⟩ <;> decide

/-! ### Decimal rendering of Unix timestamps (for the `custom-<ts>` ids) -/

theorem toDigitsCore_spec : ∀ (fuel n : Nat) (ds : List Char), 0 < n → n < fuel →
    Nat.toDigitsCore 10 fuel n ds = ((Nat.digits 10 n).map Nat.digitChar).reverse ++ ds := by
  intro fuel
  induction fuel with
  | zero => intro n ds _ h; exact absurd h (Nat.not_lt_zero n)
  | succ f ih =>
    intro n ds hn hf
    unfold Nat.toDigitsCore
    by_cases h0 : n / 10 = 0
    · have hlt : n < 10 := (Nat.div_eq_zero_iff (by norm_num)).1 h0
      rw [if_pos h0]
      rw [Nat.digits_def' (by norm_num : (1:Nat) < 10) hn, h0]
      simp [Nat.mod_eq_of_lt hlt]
    · rw [if_neg h0]
      have h10 : 10 ≤ n := by
        by_contra hc
        exact h0 (Nat.div_eq_of_lt (Nat.lt_of_not_le hc))
      have hrec := ih (n / 10) (Nat.digitChar (n % 10) :: ds) (Nat.pos_of_ne_zero h0)
        (lt_of_lt_of_le (Nat.div_lt_self hn (by norm_num)) (Nat.lt_succ_iff.1 hf))
      rw [hrec, Nat.digits_def' (by norm_num : (1:Nat) < 10) hn]
      simp [List.append_assoc]

theorem toDigits_spec (n : Nat) (hn : 0 < n) :
    Nat.toDigits 10 n = ((Nat.digits 10 n).map Nat.digitChar).reverse := by
  unfold Nat.toDigits
  rw [toDigitsCore_spec (n + 1) n [] hn (Nat.lt_succ_self n), List.append_nil]

theorem digitChar_injOn (a b : Nat) (ha : a < 10) (hb : b < 10)
    (h : Nat.digitChar a = Nat.digitChar b) : a = b := by
  have h2 : ∀ x y : Fin 10, Nat.digitChar x.val = Nat.digitChar y.val → x = y := by decide
  exact congrArg Fin.val (h2 ⟨a, ha⟩ ⟨b, hb⟩ h)

theorem map_digitChar_inj : ∀ (l1 l2 : List Nat), (∀ x ∈ l1, x < 10) →
    (∀ x ∈ l2, x < 10) → l1.map Nat.digitChar = l2.map Nat.digitChar → l1 = l2 := by
  intro l1
  induction l1 with
  | nil => intro l2 _ _ h; cases l2 <;> simp_all
  | cons x xs ih =>
    intro l2 h1 h2 h
    cases l2 with
    | nil => simp at h
    | cons y ys =>
      simp only [List.map_cons, List.cons.injEq] at h
      have hx := digitChar_injOn x y (h1 x (by simp)) (h2 y (by simp)) h.1
      have := ih ys (fun z hz => h1 z (by simp [hz])) (fun z hz => h2 z (by simp [hz])) h.2
      rw [hx, this]

theorem nat_repr_injective (m n : Nat) (h : Nat.repr m = Nat.repr n) : m = n := by
  have hdata : Nat.toDigits 10 m = Nat.toDigits 10 n := congrArg String.data h
  rcases Nat.eq_zero_or_pos m with hm | hm <;> rcases Nat.eq_zero_or_pos n with hn | hn
  · rw [hm, hn]
  · exfalso
    subst hm
    rw [toDigits_spec n hn] at hdata
    have : Nat.digits 10 n = [0] := by
      apply map_digitChar_inj
      · exact fun x hx => Nat.digits_lt_base (by norm_num) hx
      · intro x hx; simp at hx; simp [hx]
      · have := congrArg List.reverse hdata
        simp at this
        rw [← this]
        rfl
    have hofd := Nat.ofDigits_digits 10 n
    rw [this] at hofd
    simp [Nat.ofDigits] at hofd
    exact Nat.pos_iff_ne_zero.1 hn hofd.symm
  · exfalso
    subst hn
    rw [toDigits_spec m hm] at hdata
    have : Nat.digits 10 m = [0] := by
      apply map_digitChar_inj
      · exact fun x hx => Nat.digits_lt_base (by norm_num) hx
      · intro x hx; simp at hx; simp [hx]
      · have := congrArg List.reverse hdata
        simp at this
        rw [this]
        rfl
    have hofd := Nat.ofDigits_digits 10 m
    rw [this] at hofd
    simp [Nat.ofDigits] at hofd
    exact Nat.pos_iff_ne_zero.1 hm hofd.symm
  · rw [toDigits_spec m hm, toDigits_spec n hn] at hdata
    have := List.reverse_injective hdata
    have hdig := map_digitChar_inj _ _
      (fun x hx => Nat.digits_lt_base (by norm_num) hx)
      (fun x hx => Nat.digits_lt_base (by norm_num) hx) this
    exact Nat.digits.injective 10 hdig

theorem customId_inj (n1 n2 : Nat) (h : n1 ≠ n2) :
    ("custom-" ++ toString n1) ≠ ("custom-" ++ toString n2) := by
  intro he
  apply h
  apply nat_repr_injective
  have hd := congrArg String.data he
  rw [String.data_append, String.data_append] at hd
  exact String.ext (List.append_cancel_left hd)

/-! ### Claim C9: AddCluster id generation -/

/-- All four external calls of `AddCluster` succeed. -/
def connOk (env : ConnEnv) : Prop :=
  env.parseOk = true ∧ env.currentContext ≠ "" ∧
  env.clientCfgOk = true ∧ env.clientOk = true

/-- C9 (amended): every successful `AddCluster` generates the id
`custom-<unix-seconds>`; two successful adds at distinct Unix seconds get
distinct ids; and an add whose generated id is not already present inserts a
new record without overwriting any existing one.  (Two adds within the same
Unix second, however, share the id and the later one overwrites the earlier —
see the counterexample.) -/
theorem addCluster_id_generation :
    (∀ s name description labels env now dbOk, connOk env →
      ∃ info, (AddCluster s name description labels env now dbOk).1 = .ok info ∧
        info.ID = "custom-" ++ toString now) ∧
    (∀ s1 s2 name1 name2 d1 d2 l1 l2 env1 env2 now1 now2 ok1 ok2 info1 info2,
      connOk env1 → connOk env2 → now1 ≠ now2 →
      (AddCluster s1 name1 d1 l1 env1 now1 ok1).1 = .ok info1 →
      (AddCluster s2 name2 d2 l2 env2 now2 ok2).1 = .ok info2 →
      info1.ID ≠ info2.ID) ∧
    (∀ s name description labels env now dbOk, connOk env →
      lookupCluster s.mem.clusters ("custom-" ++ toString now) = none →
      (AddCluster s name description labels env now dbOk).2.mem.clusters.length =
        s.mem.clusters.length + 1 ∧
      ∀ id, id ≠ "custom-" ++ toString now →
        lookupCluster
          (AddCluster s name description labels env now dbOk).2.mem.clusters id =
        lookupCluster s.mem.clusters id) := by
  have key : ∀ (s : SystemState) name description labels env now dbOk,
      connOk env →
      ∃ info, (AddCluster s name description labels env now dbOk).1 = .ok info ∧
        info.ID = "custom-" ++ toString now ∧
        (AddCluster s name description labels env now dbOk).2.mem.clusters =
          mapAssign s.mem.clusters info := by
    intro s name description labels env now dbOk ⟨h1, h2, h3, h4⟩
    have hcx : (env.currentContext == "") = false := by
      simp only [beq_eq_false_iff_ne, ne_eq]
      exact h2
    unfold AddCluster
    simp only [h1, h3, h4, hcx, Bool.not_true, Bool.false_eq_true, if_false]
    by_cases hd : ((mapAssign s.mem.clusters
        { ID := "custom-" ++ toString now, Name := name,
          Description := description, Server := env.host,
          Version := env.version.getD "", Status := ClusterStatusUnknown,
          Client := true, Context := env.currentContext, Labels := labels,
          CreatedAt := now, UpdatedAt := now, LastCheck := 0,
          IsDefault := false, KubeconfigPath := "", KubeconfigContent := "",
          PrometheusURL := "", PrometheusUsername := "",
          PrometheusPassword := "", PrometheusEnabled := false }).length == 1) = true
    · simp only [hd, if_true]
      exact ⟨_, rfl, rfl, rfl⟩
    · simp only [hd, Bool.false_eq_true, if_false]
      exact ⟨_, rfl, rfl, rfl⟩
  refine ⟨?_, ?_, ?_⟩
  · intro s name description labels env now dbOk hok
    obtain ⟨info, hi1, hi2, _⟩ := key s name description labels env now dbOk hok
    exact ⟨info, hi1, hi2⟩
  · intro s1 s2 name1 name2 d1 d2 l1 l2 env1 env2 now1 now2 ok1 ok2 info1
      info2 hok1 hok2 hne he1 he2
    obtain ⟨j1, hj1, hj2, _⟩ := key s1 name1 d1 l1 env1 now1 ok1 hok1
    obtain ⟨k1, hk1, hk2, _⟩ := key s2 name2 d2 l2 env2 now2 ok2 hok2
    rw [he1] at hj1
    rw [he2] at hk1
    cases hj1
    cases hk1
    rw [hj2, hk2]
    exact customId_inj now1 now2 hne
  · intro s name description labels env now dbOk hok hnone
    obtain ⟨info, _, hid, hcs⟩ := key s name description labels env now dbOk hok
    have hany : (s.mem.clusters.any (fun x => x.ID == info.ID)) = false := by
      rw [List.any_eq_false]
      rw [lookupCluster_eq_none_iff] at hnone
      intro x hx
      simp only [beq_iff_eq, hid]
      exact hnone x hx
    constructor
    · rw [hcs]
      unfold mapAssign
      rw [if_neg (by simp [hany])]
      simp
    · intro id hid2
      rw [hcs]
      exact lookupCluster_mapAssign_ne s.mem.clusters info id (by rw [hid]; exact hid2)

/-- Witness for C9 at a concrete input: adding over the empty registry at
Unix second 7 yields a record with id `custom-7`. -/
theorem addCluster_id_generation_witness :
    ∃ info, (AddCluster emptySystem "A" "d" [] okConnEnv 7 true).1 = .ok info ∧
      info.ID = "custom-" ++ toString 7 :=
  addCluster_id_generation.1 emptySystem "A" "d" [] okConnEnv 7 true
    ⟨rfl, by decide, rfl, rfl⟩

/-- C9 counterexample: two successful `AddCluster` calls within the same
Unix second (5) generate the SAME id `custom-5`, and the second call
overwrites the first record instead of adding a distinct one: the registry
still holds exactly one record, now named "B". -/
theorem addCluster_same_second_overwrites_counterexample :
    ((AddCluster emptySystem "A" "d" [] okConnEnv 5 true).1.toOption.map
      (fun c => c.ID) = some "custom-5") ∧
    ((AddCluster oneClusterSystem "B" "d" [] okConnEnv 5 true).1.toOption.map
      (fun c => c.ID) = some "custom-5") ∧
    oneClusterSystem.mem.clusters.length = 1 ∧
    (AddCluster oneClusterSystem "B" "d" [] okConnEnv 5
      true).2.mem.clusters.length = 1 ∧
    ((lookupCluster (AddCluster oneClusterSystem "B" "d" [] okConnEnv 5
        true).2.mem.clusters "custom-5").map (fun c => c.Name)) = some "B" := by
  refine ⟨?_, ?_, ?_, ?_, ?_⟩ <;> decide

/-! ### Shape lemmas: what each operation does to the in-memory state -/

theorem checkClusterHealth_ID (c : ClusterInfo) (r : ProbeResult) (now : Nat) :
    (checkClusterHealth c r now).ID = c.ID := by
  obtain ⟨st, h⟩ := checkClusterHealth_eq_update c r now
  rw [h]
  rcases updateClusterStatus_cases
      (if c.Client then { c with LastCheck := now } else c) st now with
    ⟨_, h2⟩ | ⟨_, h2⟩ <;> rw [h2] <;> by_cases hc : c.Client = true <;> simp [hc]

theorem AddCluster_mem_shape (s : SystemState) (name description : String)
    (labels : List (String × String)) (env : ConnEnv) (now : Nat)
    (dbOk : Bool) :
    (AddCluster s name description labels env now dbOk).2.mem = s.mem ∨
    ∃ c, (AddCluster s name description labels env now dbOk).2.mem.clusters =
        mapAssign s.mem.clusters c ∧
      ((AddCluster s name description labels env now dbOk).2.mem.defaultID =
          s.mem.defaultID ∨
       (AddCluster s name description labels env now dbOk).2.mem.defaultID =
          c.ID) := by
  simp only [AddCluster]
  split
  · left; rfl
  split
  · left; rfl
  split
  · left; rfl
  split
  · left; rfl
  split
  · right; exact ⟨_, rfl, Or.inr rfl⟩
  · right; exact ⟨_, rfl, Or.inl rfl⟩

theorem registerInCluster_mem_shape (s : SystemState) (env : InClusterEnv)
    (now : Nat) (dbOk : Bool) :
    (registerInCluster s env now dbOk).2.mem = s.mem ∨
    ∃ c, (registerInCluster s env now dbOk).2.mem.clusters =
        mapAssign s.mem.clusters c ∧
      ((registerInCluster s env now dbOk).2.mem.defaultID = s.mem.defaultID ∨
       (registerInCluster s env now dbOk).2.mem.defaultID = c.ID) := by
  simp only [registerInCluster]
  split
  · left; rfl
  split
  · left; rfl
  split
  · left; rfl
  split
  · right; exact ⟨_, rfl, Or.inr rfl⟩
  · right; exact ⟨_, rfl, Or.inl rfl⟩

theorem loadKubeconfigContext_mem_shape (s : SystemState) (ctx : KubeContext) :
    (loadKubeconfigContext s ctx).mem = s.mem ∨
    ∃ c, (loadKubeconfigContext s ctx).mem.clusters =
        mapAssign s.mem.clusters c ∧
      ((loadKubeconfigContext s ctx).mem.defaultID = s.mem.defaultID ∨
       (loadKubeconfigContext s ctx).mem.defaultID = c.ID) := by
  simp only [loadKubeconfigContext]
  split
  · left; rfl
  split
  · left; rfl
  split
  · left; rfl
  split
  · left; rfl
  split
  · right; exact ⟨_, rfl, Or.inr rfl⟩
  · right; exact ⟨_, rfl, Or.inl rfl⟩

theorem RemoveCluster_mem_shape (s : SystemState) (id : String) (a b : Bool) :
    (RemoveCluster s id a b).2.mem = s.mem ∨
    (id ≠ "in-cluster" ∧
      (((RemoveCluster s id a b).2.mem.clusters = mapDelete s.mem.clusters id ∧
        (RemoveCluster s id a b).2.mem.defaultID = s.mem.defaultID ∧
        s.mem.defaultID ≠ id) ∨
       (s.mem.defaultID = id ∧ mapDelete s.mem.clusters id = [] ∧
        (RemoveCluster s id a b).2.mem = ⟨[], ""⟩) ∨
       (s.mem.defaultID = id ∧
        ∃ c rest, mapDelete s.mem.clusters id = c :: rest ∧
        (RemoveCluster s id a b).2.mem.clusters =
          { c with IsDefault := true } :: rest ∧
        (RemoveCluster s id a b).2.mem.defaultID = c.ID))) := by
  unfold RemoveCluster
  cases hl : lookupCluster s.mem.clusters id
  · left; rfl
  · rcases hic : (id == "in-cluster") with _ | _
    · rcases hd : (s.mem.defaultID == id) with _ | _
      · right
        refine ⟨by simpa using hic, Or.inl ?_⟩
        simp [hic, hd]
        exact fun hh => by simp [hh] at hd
      · cases hdel : mapDelete s.mem.clusters id with
        | nil =>
          right
          refine ⟨by simpa using hic,
            Or.inr (Or.inl ⟨by simpa using hd, rfl, ?_⟩)⟩
          simp [hic, hd, hdel]
        | cons c rest =>
          right
          refine ⟨by simpa using hic,
            Or.inr (Or.inr ⟨by simpa using hd, c, rest, rfl, ?_, ?_⟩)⟩ <;>
            simp [hic, hd, hdel]
    · left
      simp [hic]

theorem SetDefaultCluster_mem_shape (s : SystemState) (id : String)
    (a b : Bool) :
    (SetDefaultCluster s id a b).2.mem = s.mem ∨
    ((lookupCluster s.mem.clusters id).isSome ∧
     ∃ cs1, (cs1 = s.mem.clusters ∨
        ∃ old, cs1 = mapAssign s.mem.clusters old) ∧
      (SetDefaultCluster s id a b).2.mem.clusters =
        cs1.map (fun c => if c.ID == id then { c with IsDefault := true }
          else c) ∧
      (SetDefaultCluster s id a b).2.mem.defaultID = id) := by
  simp only [SetDefaultCluster]
  split
  · left; rfl
  · rename_i c hl
    right
    refine ⟨by simp [hl], ?_⟩
    split
    · exact ⟨s.mem.clusters, Or.inl rfl, rfl, rfl⟩
    · split
      · exact ⟨s.mem.clusters, Or.inl rfl, rfl, rfl⟩
      · exact ⟨_, Or.inr ⟨_, rfl⟩, rfl, rfl⟩

theorem UpdateClusterLabels_mem_shape (s : SystemState) (id : String)
    (labels : List (String × String)) (now : Nat) (b : Bool) :
    (UpdateClusterLabels s id labels now b).2.mem = s.mem ∨
    ∃ c, (UpdateClusterLabels s id labels now b).2.mem.clusters =
        mapAssign s.mem.clusters c ∧
      (UpdateClusterLabels s id labels now b).2.mem.defaultID =
        s.mem.defaultID := by
  unfold UpdateClusterLabels
  cases hl : lookupCluster s.mem.clusters id
  · left; rfl
  · right
    exact ⟨_, rfl, rfl⟩

theorem UpdateClusterPrometheus_mem_shape (s : SystemState)
    (id url u p : String) (e : Bool) (now : Nat) (b : Bool) :
    (UpdateClusterPrometheus s id url u p e now b).2.mem = s.mem ∨
    ∃ c, (UpdateClusterPrometheus s id url u p e now b).2.mem.clusters =
        mapAssign s.mem.clusters c ∧
      (UpdateClusterPrometheus s id url u p e now b).2.mem.defaultID =
        s.mem.defaultID := by
  unfold UpdateClusterPrometheus
  cases hl : lookupCluster s.mem.clusters id
  · left; rfl
  · right
    rcases hup : repoUpdatePrometheusConfig s.db id url u p e b with _ | _ <;>
      simp only [hup] <;>
      first
      | exact ⟨_, rfl, rfl⟩
      | exact ⟨_, rfl, trivial⟩

theorem ensureDefaultCluster_mem_shape (s : SystemState) (b : Bool) :
    (ensureDefaultCluster s b).2.mem = s.mem ∨
    (s.mem.defaultID = "" ∧
     ∃ c rest, s.mem.clusters = c :: rest ∧
      (ensureDefaultCluster s b).2.mem.clusters =
        { c with IsDefault := true } :: rest ∧
      (ensureDefaultCluster s b).2.mem.defaultID = c.ID) := by
  unfold ensureDefaultCluster
  rcases hd : (s.mem.defaultID == "") with _ | _
  · left; simp [hd]
  · cases hc : s.mem.clusters with
    | nil => left; simp [hd, hc]
    | cons c rest =>
      right
      refine ⟨by simpa using hd, c, rest, rfl, ?_, ?_⟩ <;> simp [hd, hc]

/-! ### Presence and default-pointer preservation across operations -/

theorem isSome_lookup_cons_flag (c : ClusterInfo) (rest : List ClusterInfo)
    (x : String) :
    (lookupCluster ({ c with IsDefault := true } :: rest) x).isSome =
      (lookupCluster (c :: rest) x).isSome := by
  unfold lookupCluster
  rw [List.find?_cons, List.find?_cons]
  rcases h : (c.ID == x) with _ | _ <;> simp [h]

theorem setDefaultFlag_id (id : String) (c : ClusterInfo) :
    ((fun c => if c.ID == id then { c with IsDefault := true } else c) c).ID =
      c.ID := by
  by_cases h : (c.ID == id) = true <;> simp [h]

theorem loadClustersFromDB_preserves_mem (m : ManagerState) (db : DB)
    (hc : String → Bool) (x : String)
    (h : (lookupCluster m.clusters x).isSome) :
    (lookupCluster (loadClustersFromDB m db hc).clusters x).isSome := by
  unfold loadClustersFromDB
  generalize repoGetAll db = rows
  induction rows generalizing m with
  | nil => exact h
  | cons r rs ih =>
    simp only [List.foldl_cons]
    refine ih _ ?_
    unfold loadClusterStep
    exact isSome_lookupCluster_mapAssign _ _ _ h

theorem scanClustersInDir_preserves_mem (s : SystemState)
    (ctxs : List KubeContext) (x : String)
    (h : (lookupCluster s.mem.clusters x).isSome) :
    (lookupCluster (scanClustersInDir s ctxs).mem.clusters x).isSome := by
  unfold scanClustersInDir
  induction ctxs generalizing s with
  | nil => exact h
  | cons ctx rest ih =>
    simp only [List.foldl_cons]
    refine ih _ ?_
    rcases loadKubeconfigContext_mem_shape s ctx with h1 | ⟨c, h1, _⟩
    · rw [h1]; exact h
    · rw [h1]; exact isSome_lookupCluster_mapAssign _ _ _ h

theorem checkAllClusters_preserves_mem (m : ManagerState)
    (outcome : String → ProbeResult) (now : Nat) (x : String)
    (h : (lookupCluster m.clusters x).isSome) :
    (lookupCluster (checkAllClusters m outcome now).clusters x).isSome := by
  unfold checkAllClusters
  rw [lookupCluster_map_id_preserving _ _
    (fun c => checkClusterHealth_ID c (outcome c.ID) now)]
  simpa using h

theorem regStep_preserves_inCluster (s t : SystemState) (h : RegStep s t)
    (hmem : (lookupCluster s.mem.clusters "in-cluster").isSome) :
    (lookupCluster t.mem.clusters "in-cluster").isSome := by
  cases h with
  | add name description labels env now dbOk =>
    rcases AddCluster_mem_shape s name description labels env now dbOk with
      h1 | ⟨c, h1, _⟩
    · rw [h1]; exact hmem
    · rw [h1]; exact isSome_lookupCluster_mapAssign _ _ _ hmem
  | remove id a b =>
    rcases RemoveCluster_mem_shape s id a b with
      h1 | ⟨hne, hcase⟩
    · rw [h1]; exact hmem
    · have hpres : (lookupCluster (mapDelete s.mem.clusters id)
          "in-cluster").isSome := by
        rw [lookupCluster_mapDelete_ne _ _ _ (fun hh => hne hh.symm)]
        exact hmem
      rcases hcase with ⟨h1, _, _⟩ | ⟨_, hdel, h1⟩ | ⟨_, c, rest, hdel, h1, _⟩
      · rw [h1]; exact hpres
      · rw [hdel] at hpres
        simp [lookupCluster] at hpres
      · rw [h1, isSome_lookup_cons_flag, ← hdel]
        exact hpres
  | setDefault id a b =>
    rcases SetDefaultCluster_mem_shape s id a b with
      h1 | ⟨_, cs1, hcs1, h1, _⟩
    · rw [h1]; exact hmem
    · rw [h1, lookupCluster_map_id_preserving _ _ (setDefaultFlag_id id)]
      have : (lookupCluster cs1 "in-cluster").isSome := by
        rcases hcs1 with rfl | ⟨old, rfl⟩
        · exact hmem
        · exact isSome_lookupCluster_mapAssign _ _ _ hmem
      simpa using this
  | updateLabels id labels now b =>
    rcases UpdateClusterLabels_mem_shape s id labels now b with
      h1 | ⟨c, h1, _⟩
    · rw [h1]; exact hmem
    · rw [h1]; exact isSome_lookupCluster_mapAssign _ _ _ hmem
  | updatePrometheus id url u p e now b =>
    rcases UpdateClusterPrometheus_mem_shape s id url u p e now b with
      h1 | ⟨c, h1, _⟩
    · rw [h1]; exact hmem
    · rw [h1]; exact isSome_lookupCluster_mapAssign _ _ _ hmem
  | loadFromDB hc =>
    exact loadClustersFromDB_preserves_mem s.mem s.db hc _ hmem
  | register env now dbOk =>
    rcases registerInCluster_mem_shape s env now dbOk with h1 | ⟨c, h1, _⟩
    · rw [h1]; exact hmem
    · rw [h1]; exact isSome_lookupCluster_mapAssign _ _ _ hmem
  | scan ctxs =>
    exact scanClustersInDir_preserves_mem s ctxs _ hmem
  | ensureDefault b =>
    rcases ensureDefaultCluster_mem_shape s b with h1 | ⟨_, c, rest, hsc, h1, _⟩
    · rw [h1]; exact hmem
    · rw [h1, isSome_lookup_cons_flag, ← hsc]
      exact hmem
  | healthCycle outcome now =>
    exact checkAllClusters_preserves_mem s.mem outcome now _ hmem

/-- Well-formedness of the default pointer: when set, it names a record
present in the map. -/
def DefaultPointerWF (m : ManagerState) : Prop :=
  m.defaultID ≠ "" → (lookupCluster m.clusters m.defaultID).isSome

instance (m : ManagerState) : Decidable (DefaultPointerWF m) := by
  unfold DefaultPointerWF
  infer_instance

theorem loadClustersFromDB_dptr (m : ManagerState) (db : DB)
    (hc : String → Bool) (h : DefaultPointerWF m) :
    DefaultPointerWF (loadClustersFromDB m db hc) := by
  unfold loadClustersFromDB
  generalize repoGetAll db = rows
  induction rows generalizing m with
  | nil => exact h
  | cons r rs ih =>
    simp only [List.foldl_cons]
    refine ih _ ?_
    unfold loadClusterStep DefaultPointerWF
    rcases hdf : r.IsDefault with _ | _
    · simp only [hdf, Bool.false_eq_true, if_false]
      intro hne
      exact isSome_lookupCluster_mapAssign _ _ _ (h hne)
    · simp only [hdf, if_true]
      intro _
      have := lookupCluster_mapAssign_self m.clusters
        (modelToClusterInfo r (hc r.ID))
      rw [this]
      rfl

theorem regStep_preserves_dptr (s t : SystemState) (h : RegStep s t)
    (hwf : DefaultPointerWF s.mem) : DefaultPointerWF t.mem := by
  cases h with
  | add name description labels env now dbOk =>
    rcases AddCluster_mem_shape s name description labels env now dbOk with
      h1 | ⟨c, h1, hdef | hdef⟩
    · rw [h1]; exact hwf
    · intro hne
      rw [h1, hdef]
      rw [hdef] at hne
      exact isSome_lookupCluster_mapAssign _ _ _ (hwf hne)
    · intro _
      rw [h1, hdef, lookupCluster_mapAssign_self]
      rfl
  | remove id a b =>
    rcases RemoveCluster_mem_shape s id a b with
      h1 | ⟨hne, ⟨h1, h2, h3⟩ | ⟨_, hdel, h1⟩ | ⟨_, c, rest, hdel, h1, h2⟩⟩
    · rw [h1]; exact hwf
    · intro hd
      rw [h1, h2]
      rw [h2] at hd
      rw [lookupCluster_mapDelete_ne _ _ _ h3]
      exact hwf hd
    · rw [h1]
      intro hd
      exact absurd rfl hd
    · intro _
      rw [h1, h2]
      unfold lookupCluster
      rw [List.find?_cons_of_pos _ (by simp)]
      rfl
  | setDefault id a b =>
    rcases SetDefaultCluster_mem_shape s id a b with
      h1 | ⟨hsome, cs1, hcs1, h1, h2⟩
    · rw [h1]; exact hwf
    · intro _
      rw [h1, h2, lookupCluster_map_id_preserving _ _ (setDefaultFlag_id id)]
      have : (lookupCluster cs1 id).isSome := by
        rcases hcs1 with rfl | ⟨old, rfl⟩
        · exact hsome
        · exact isSome_lookupCluster_mapAssign _ _ _ hsome
      simpa using this
  | updateLabels id labels now b =>
    rcases UpdateClusterLabels_mem_shape s id labels now b with
      h1 | ⟨c, h1, h2⟩
    · rw [h1]; exact hwf
    · intro hd
      rw [h1, h2]
      rw [h2] at hd
      exact isSome_lookupCluster_mapAssign _ _ _ (hwf hd)
  | updatePrometheus id url u p e now b =>
    rcases UpdateClusterPrometheus_mem_shape s id url u p e now b with
      h1 | ⟨c, h1, h2⟩
    · rw [h1]; exact hwf
    · intro hd
      rw [h1, h2]
      rw [h2] at hd
      exact isSome_lookupCluster_mapAssign _ _ _ (hwf hd)
  | loadFromDB hc =>
    exact loadClustersFromDB_dptr s.mem s.db hc hwf
  | register env now dbOk =>
    rcases registerInCluster_mem_shape s env now dbOk with
      h1 | ⟨c, h1, hdef | hdef⟩
    · rw [h1]; exact hwf
    · intro hne
      rw [h1, hdef]
      rw [hdef] at hne
      exact isSome_lookupCluster_mapAssign _ _ _ (hwf hne)
    · intro _
      rw [h1, hdef, lookupCluster_mapAssign_self]
      rfl
  | scan ctxs =>
    unfold scanClustersInDir
    induction ctxs generalizing s with
    | nil => exact hwf
    | cons ctx rest ih =>
      simp only [List.foldl_cons]
      refine ih _ ?_
      rcases loadKubeconfigContext_mem_shape s ctx with h1 | ⟨c, h1, hdef | hdef⟩
      · rw [h1]; exact hwf
      · intro hne
        rw [h1, hdef]
        rw [hdef] at hne
        exact isSome_lookupCluster_mapAssign _ _ _ (hwf hne)
      · intro _
        rw [h1, hdef, lookupCluster_mapAssign_self]
        rfl
  | ensureDefault b =>
    rcases ensureDefaultCluster_mem_shape s b with
      h1 | ⟨_, c, rest, hsc, h1, h2⟩
    · rw [h1]; exact hwf
    · intro _
      rw [h1, h2]
      unfold lookupCluster
      rw [List.find?_cons_of_pos _ (by simp)]
      rfl
  | healthCycle outcome now =>
    intro hd
    unfold checkAllClusters at *
    simp only at hd ⊢
    rw [lookupCluster_map_id_preserving _ _
      (fun c => checkClusterHealth_ID c (outcome c.ID) now)]
    simpa using hwf hd

/-! ### Claim C8: removal protection -/

/-- C8: `RemoveCluster` returns `NotFound` for every id absent from the
registry and `ProtectedResource` for the present in-cluster record, leaving
the whole state unchanged in both cases; and no single registry operation,
discovery stage or health cycle (`RegStep`) ever removes the in-cluster
record, so it can never be removed by any sequence of operations. -/
theorem removeCluster_protection :
    (∀ s id a b, lookupCluster s.mem.clusters id = none →
      RemoveCluster s id a b = (some .notFound, s)) ∧
    (∀ s a b, (lookupCluster s.mem.clusters "in-cluster").isSome →
      RemoveCluster s "in-cluster" a b = (some .protectedResource, s)) ∧
    (∀ s t, RegStep s t →
      (lookupCluster s.mem.clusters "in-cluster").isSome →
      (lookupCluster t.mem.clusters "in-cluster").isSome) := by
  refine ⟨?_, ?_, regStep_preserves_inCluster⟩
  · intro s id a b h
    unfold RemoveCluster
    rw [h]
  · intro s a b h
    rw [Option.isSome_iff_exists] at h
    obtain ⟨c, hc⟩ := h
    unfold RemoveCluster
    rw [hc]
    simp

/-- Registry state holding the protected in-cluster record, produced by
discovery stage 2 over the empty registry. -/
def inClusterSystem : SystemState :=
  (registerInCluster emptySystem okInClusterEnv 9 true).2

/-- Witness for C8 at concrete inputs: the in-cluster record cannot be
removed, an unknown id yields NotFound with the state unchanged, and a
removal step leaves the in-cluster record present. -/
theorem removeCluster_protection_witness :
    RemoveCluster inClusterSystem "in-cluster" true true =
      (some ClusterError.protectedResource, inClusterSystem) ∧
    RemoveCluster inClusterSystem "nope" true true =
      (some ClusterError.notFound, inClusterSystem) ∧
    (lookupCluster (RemoveCluster inClusterSystem "custom-1" true
        true).2.mem.clusters "in-cluster").isSome := by
  refine ⟨removeCluster_protection.2.1 inClusterSystem true true (by decide),
    removeCluster_protection.1 inClusterSystem "nope" true true (by decide),
    removeCluster_protection.2.2 inClusterSystem _
      (RegStep.remove inClusterSystem "custom-1" true true) (by decide)⟩

/-! ### Claim C10: the default pointer always names a present record -/

/-- C10: the default pointer is well formed in the initial (empty) state,
every registry operation, discovery stage and health cycle preserves this
well-formedness, and under it `GetDefaultCluster` either returns the
`NoDefaultConfigured` error (exactly the empty-pointer case) or successfully
returns an existing record — it never succeeds while yielding no record. -/
theorem getDefaultCluster_wf :
    DefaultPointerWF ⟨[], ""⟩ ∧
    (∀ s t, RegStep s t → DefaultPointerWF s.mem → DefaultPointerWF t.mem) ∧
    (∀ m, DefaultPointerWF m →
      (m.defaultID = "" ∧
        GetDefaultCluster m = .error .noDefaultConfigured) ∨
      (m.defaultID ≠ "" ∧ ∃ c, GetDefaultCluster m = .ok (some c))) := by
  refine ⟨fun h => absurd rfl h, regStep_preserves_dptr, ?_⟩
  intro m hwf
  rcases hd : (m.defaultID == "") with _ | _
  · right
    have hne : m.defaultID ≠ "" := by simpa using hd
    have := hwf hne
    rw [Option.isSome_iff_exists] at this
    obtain ⟨c, hc⟩ := this
    refine ⟨hne, c, ?_⟩
    unfold GetDefaultCluster
    rw [hd, hc]
    rfl
  · left
    refine ⟨by simpa using hd, ?_⟩
    unfold GetDefaultCluster
    rw [hd]
    rfl

/-- Witness for C10 at concrete inputs: well-formedness holds after an add
step from the empty state, and `GetDefaultCluster` then returns the added
record. -/
theorem getDefaultCluster_wf_witness :
    DefaultPointerWF oneClusterSystem.mem ∧
    (oneClusterSystem.mem.defaultID ≠ "" ∧
      ∃ c, GetDefaultCluster oneClusterSystem.mem = .ok (some c)) := by
  have h1 : DefaultPointerWF oneClusterSystem.mem :=
    getDefaultCluster_wf.2.1 emptySystem oneClusterSystem
      (RegStep.add emptySystem "A" "d" [("env", "prod")] okConnEnv 5 true)
      (getDefaultCluster_wf.1)
  have h2 := getDefaultCluster_wf.2.2 oneClusterSystem.mem h1
  rcases h2 with ⟨hd, _⟩ | h2
  · exact absurd hd (by decide)
  · exact ⟨h1, h2⟩

/-! ### The default-uniqueness invariant (claim C1) -/

/-- Well-formed registry memory: ids are pairwise distinct and nonempty, a
record's `IsDefault` flag holds exactly when its id is the default pointer,
and a set pointer names a present record. -/
def WF (m : ManagerState) : Prop :=
  (m.clusters.map (fun c => c.ID)).Nodup ∧
  (∀ c ∈ m.clusters, c.ID ≠ "") ∧
  (∀ c ∈ m.clusters, c.IsDefault = (c.ID == m.defaultID)) ∧
  (m.defaultID ≠ "" → ∃ c ∈ m.clusters, c.ID = m.defaultID)

instance (m : ManagerState) : Decidable (WF m) := by
  unfold WF
  infer_instance

theorem WF_countDefaults (m : ManagerState) (h : WF m) :
    countDefaults m.clusters = if m.defaultID = "" then 0 else 1 := by
  obtain ⟨hnd, hne, hflag, hmem⟩ := h
  rw [countDefaults_congr m.clusters m.defaultID hflag]
  by_cases hd : m.defaultID = ""
  · rw [if_pos hd]
    apply length_filter_id_of_absent
    intro c hc
    rw [hd]
    exact hne c hc
  · rw [if_neg hd]
    exact length_filter_id_of_present _ _ hnd (hmem hd)

theorem WF_empty : WF ⟨[], ""⟩ := by
  refine ⟨List.nodup_nil, ?_, ?_, ?_⟩ <;> simp

theorem lookupCluster_eq_some (cs : List ClusterInfo) (x : String)
    (c : ClusterInfo) (h : lookupCluster cs x = some c) :
    c ∈ cs ∧ c.ID = x := by
  unfold lookupCluster at h
  exact ⟨List.mem_of_find?_eq_some h, by simpa using List.find?_some h⟩

theorem checkClusterHealth_IsDefault (c : ClusterInfo) (r : ProbeResult)
    (now : Nat) : (checkClusterHealth c r now).IsDefault = c.IsDefault := by
  obtain ⟨st, h⟩ := checkClusterHealth_eq_update c r now
  rw [h]
  rcases updateClusterStatus_cases
      (if c.Client then { c with LastCheck := now } else c) st now with
    ⟨_, h2⟩ | ⟨_, h2⟩ <;> rw [h2] <;> by_cases hc : c.Client = true <;> simp [hc]

/-- Inserting a record with a fresh nonempty id preserves well-formedness,
provided the record is flagged default exactly when it becomes the pointer,
and it only becomes the pointer when no pointer was set. -/
theorem WF_insert_fresh (m : ManagerState) (c : ClusterInfo) (isDef : Bool)
    (hwf : WF m)
    (hfresh : ∀ x ∈ m.clusters, x.ID ≠ c.ID)
    (hne : c.ID ≠ "")
    (hflag : c.IsDefault = isDef)
    (hcond : isDef = true → m.defaultID = "") :
    WF ⟨mapAssign m.clusters c, if isDef then c.ID else m.defaultID⟩ := by
  obtain ⟨hnd, hids, hflags, hmem⟩ := hwf
  have hany : (m.clusters.any fun x => x.ID == c.ID) = false := by
    rw [List.any_eq_false]
    intro x hx
    simpa using hfresh x hx
  have happ : mapAssign m.clusters c = m.clusters ++ [c] := by
    unfold mapAssign
    rw [if_neg (by simp [hany])]
  refine ⟨?_, ?_, ?_, ?_⟩
  · exact nodup_ids_mapAssign _ _ hnd
  · intro x hx
    rw [happ, List.mem_append, List.mem_singleton] at hx
    rcases hx with hx | rfl
    · exact hids x hx
    · exact hne
  · intro x hx
    rw [happ, List.mem_append, List.mem_singleton] at hx
    rcases hx with hx | rfl
    · rcases hd : isDef with _ | _
      · simp only [hd, Bool.false_eq_true, if_false]
        exact hflags x hx
      · simp only [hd, if_true]
        have h1 : x.IsDefault = false := by
          rw [hflags x hx, hcond hd]
          simp [hids x hx]
        have h2 : (x.ID == c.ID) = false := by
          simpa using hfresh x hx
        rw [h1, h2]
    · rcases hd : isDef with _ | _
      · simp only [hd, Bool.false_eq_true, if_false]
        rw [hflag, hd]
        by_cases hdm : m.defaultID = ""
        · simp [hdm, hne]
        · obtain ⟨y, hy, hyid⟩ := hmem hdm
          have h8 := hfresh y hy
          rw [hyid] at h8
          symm
          simp only [beq_eq_false_iff_ne, ne_eq]
          intro hh
          exact h8 hh.symm
      · simp only [hd, if_true]
        rw [hflag, hd]
        simp
  · rcases hd : isDef with _ | _
    · simp only [hd, Bool.false_eq_true, if_false]
      intro hdm
      obtain ⟨y, hy, hyid⟩ := hmem hdm
      exact ⟨y, by rw [happ]; exact List.mem_append_left _ hy, hyid⟩
    · simp only [hd, if_true]
      intro _
      exact ⟨c, by rw [happ]; exact List.mem_append_right _ (by simp), rfl⟩

theorem WF_ensureDefaultCluster (s : SystemState) (b : Bool)
    (hwf : WF s.mem) : WF (ensureDefaultCluster s b).2.mem := by
  rcases ensureDefaultCluster_mem_shape s b with h1 | ⟨hdm, c, rest, hsc, h1, h2⟩
  · rw [h1]; exact hwf
  · obtain ⟨hnd, hids, hflags, _⟩ := hwf
    rw [hsc] at hnd hids hflags
    refine ⟨?_, ?_, ?_, ?_⟩
    · rw [h1]
      simpa using hnd
    · intro x hx
      rw [h1] at hx
      rcases List.mem_cons.1 hx with rfl | hx
      · exact hids c (by simp)
      · exact hids x (by simp [hx])
    · intro x hx
      rw [h1] at hx
      rw [h2]
      rcases List.mem_cons.1 hx with rfl | hx
      · simp
      · have h5 : x.IsDefault = false := by
          rw [hflags x (by simp [hx]), hdm]
          simp [hids x (by simp [hx])]
        have h6 : (x.ID == c.ID) = false := by
          rw [List.map_cons, List.nodup_cons] at hnd
          have h7 : x.ID ∈ rest.map (fun c => c.ID) := by
            rw [List.mem_map]; exact ⟨x, hx, rfl⟩
          simp only [beq_eq_false_iff_ne, ne_eq]
          intro hh
          exact hnd.1 (hh ▸ h7)
        rw [h5, h6]
    · intro _
      rw [h1, h2]
      exact ⟨{ c with IsDefault := true }, by simp, rfl⟩

theorem ids_map_id_preserving (cs : List ClusterInfo)
    (f : ClusterInfo → ClusterInfo) (hf : ∀ c, (f c).ID = c.ID) :
    (cs.map f).map (fun c => c.ID) = cs.map (fun c => c.ID) := by
  rw [List.map_map]
  exact List.map_congr_left (fun x _ => hf x)

theorem mem_mapAssign_of_ne (cs : List ClusterInfo) (c y : ClusterInfo)
    (hy : y ∈ cs) (hne : y.ID ≠ c.ID) : y ∈ mapAssign cs c := by
  unfold mapAssign
  split
  · rw [List.mem_map]
    exact ⟨y, hy, by rw [if_neg (by simpa using hne)]⟩
  · exact List.mem_append_left _ hy

theorem self_mem_mapAssign (cs : List ClusterInfo) (c : ClusterInfo) :
    c ∈ mapAssign cs c :=
  (lookupCluster_eq_some _ _ _ (lookupCluster_mapAssign_self cs c)).1

theorem ManagerState_eq (m : ManagerState) (cs : List ClusterInfo)
    (d : String) (h1 : m.clusters = cs) (h2 : m.defaultID = d) :
    m = ⟨cs, d⟩ := by
  cases m
  simp_all

theorem append_ne_empty_left (a b : String) (ha : a.data ≠ []) :
    a ++ b ≠ "" := by
  intro hh
  have h2 := congrArg String.data hh
  rw [String.data_append] at h2
  exact ha (List.append_eq_nil.1 h2).1

/-- A map whose function preserves `ID` and `IsDefault` preserves
well-formedness (with an unchanged pointer). -/
theorem WF_map_id_flag_preserving (m : ManagerState)
    (f : ClusterInfo → ClusterInfo) (hid : ∀ c, (f c).ID = c.ID)
    (hfl : ∀ c, (f c).IsDefault = c.IsDefault) (hwf : WF m) :
    WF ⟨m.clusters.map f, m.defaultID⟩ := by
  obtain ⟨hnd, hids, hflags, hmem⟩ := hwf
  refine ⟨?_, ?_, ?_, ?_⟩
  · simp only
    rw [ids_map_id_preserving _ _ hid]
    exact hnd
  · intro x hx
    simp only [List.mem_map] at hx
    obtain ⟨y, hy, rfl⟩ := hx
    rw [hid]
    exact hids y hy
  · intro x hx
    simp only [List.mem_map] at hx
    obtain ⟨y, hy, rfl⟩ := hx
    simp only
    rw [hid, hfl]
    exact hflags y hy
  · intro hd
    obtain ⟨y, hy, hyid⟩ := hmem hd
    exact ⟨f y, List.mem_map_of_mem f hy, by rw [hid]; exact hyid⟩

/-- Replacing a present record by one with the same id and flag preserves
well-formedness. -/
theorem WF_mapAssign_same_id_flag (m : ManagerState) (c0 c1 : ClusterInfo)
    (hwf : WF m) (hc0 : c0 ∈ m.clusters) (hid : c1.ID = c0.ID)
    (hfl : c1.IsDefault = c0.IsDefault) :
    WF ⟨mapAssign m.clusters c1, m.defaultID⟩ := by
  obtain ⟨hnd, hids, hflags, hmem⟩ := hwf
  refine ⟨?_, ?_, ?_, ?_⟩
  · exact nodup_ids_mapAssign _ _ hnd
  · intro x hx
    rcases mem_mapAssign _ _ _ hx with rfl | ⟨hx2, _⟩
    · rw [hid]
      exact hids c0 hc0
    · exact hids x hx2
  · intro x hx
    rcases mem_mapAssign _ _ _ hx with rfl | ⟨hx2, _⟩
    · simp only
      rw [hfl, hid]
      exact hflags c0 hc0
    · exact hflags x hx2
  · intro hd
    obtain ⟨y, hy, hyid⟩ := hmem hd
    by_cases hcase : y.ID = c1.ID
    · exact ⟨c1, self_mem_mapAssign _ _, by rw [← hcase]; exact hyid⟩
    · exact ⟨y, mem_mapAssign_of_ne _ _ _ hy hcase, hyid⟩

theorem WF_UpdateClusterLabels (s : SystemState) (id : String)
    (labels : List (String × String)) (now : Nat) (b : Bool)
    (hwf : WF s.mem) : WF (UpdateClusterLabels s id labels now b).2.mem := by
  unfold UpdateClusterLabels
  cases hl : lookupCluster s.mem.clusters id
  · exact hwf
  · rename_i cluster
    obtain ⟨hc0, _⟩ := lookupCluster_eq_some _ _ _ hl
    exact WF_mapAssign_same_id_flag s.mem cluster _ hwf hc0 rfl rfl

theorem WF_UpdateClusterPrometheus (s : SystemState) (id url u p : String)
    (e : Bool) (now : Nat) (b : Bool) (hwf : WF s.mem) :
    WF (UpdateClusterPrometheus s id url u p e now b).2.mem := by
  unfold UpdateClusterPrometheus
  cases hl : lookupCluster s.mem.clusters id
  · exact hwf
  · rename_i cluster
    obtain ⟨hc0, _⟩ := lookupCluster_eq_some _ _ _ hl
    rcases hup : repoUpdatePrometheusConfig s.db id url u p e b with _ | _ <;>
      exact WF_mapAssign_same_id_flag s.mem cluster _ hwf hc0 rfl rfl

theorem WF_checkAllClusters (m : ManagerState)
    (outcome : String → ProbeResult) (now : Nat) (hwf : WF m) :
    WF (checkAllClusters m outcome now) := by
  unfold checkAllClusters
  exact WF_map_id_flag_preserving m _
    (fun c => checkClusterHealth_ID c (outcome c.ID) now)
    (fun c => checkClusterHealth_IsDefault c (outcome c.ID) now) hwf

theorem WF_RemoveCluster (s : SystemState) (id : String) (a b : Bool)
    (hwf : WF s.mem) : WF (RemoveCluster s id a b).2.mem := by
  rcases RemoveCluster_mem_shape s id a b with h0 | ⟨hneic, hcase⟩
  · rw [h0]; exact hwf
  obtain ⟨hnd, hids, hflags, hmem⟩ := hwf
  rcases hcase with ⟨h1, h2, h3⟩ | ⟨hdid, hdel, h1⟩ | ⟨hdid, c, rest, hdel, h1, h2⟩
  · -- a non-default record was removed
    rw [ManagerState_eq _ _ _ h1 h2]
    refine ⟨?_, ?_, ?_, ?_⟩
    · exact ((List.filter_sublist _).map _).nodup hnd
    · intro x hx
      exact hids x (List.mem_of_mem_filter hx)
    · intro x hx
      exact hflags x (List.mem_of_mem_filter hx)
    · intro hd
      obtain ⟨y, hy, hyid⟩ := hmem hd
      refine ⟨y, ?_, hyid⟩
      rw [mapDelete, List.mem_filter]
      refine ⟨hy, ?_⟩
      simp only [Bool.not_eq_eq_eq_not, Bool.not_true, beq_eq_false_iff_ne, ne_eq]
      rw [hyid]
      exact fun hh => h3 hh
  · -- the default was removed and nothing remains
    rw [h1]
    exact WF_empty
  · -- the default was removed; the head of the remainder is elected
    have hstate : (RemoveCluster s id a b).2.mem =
        ⟨{ c with IsDefault := true } :: rest, c.ID⟩ :=
      ManagerState_eq _ _ _ h1 h2
    rw [hstate]
    have hsub : List.Sublist (c :: rest) s.mem.clusters := by
      rw [← hdel]
      exact List.filter_sublist _
    have hndc : ((c :: rest).map (fun c => c.ID)).Nodup :=
      (hsub.map _).nodup hnd
    refine ⟨?_, ?_, ?_, ?_⟩
    · simpa using hndc
    · intro x hx
      rcases List.mem_cons.1 hx with rfl | hx
      · exact hids c (hsub.mem (by simp))
      · exact hids x (hsub.mem (by simp [hx]))
    · intro x hx
      rcases List.mem_cons.1 hx with rfl | hx
      · simp
      · have h5 : x.IsDefault = false := by
          rw [hflags x (hsub.mem (by simp [hx])), hdid]
          have : x ∈ mapDelete s.mem.clusters id := by rw [hdel]; simp [hx]
          rw [mapDelete, List.mem_filter] at this
          simpa using this.2
        have h6 : (x.ID == c.ID) = false := by
          rw [List.map_cons, List.nodup_cons] at hndc
          simp only [beq_eq_false_iff_ne, ne_eq]
          intro hh
          exact hndc.1 (hh ▸ (by rw [List.mem_map]; exact ⟨x, hx, rfl⟩))
        rw [h5, h6]
    · intro _
      exact ⟨{ c with IsDefault := true }, by simp, rfl⟩

theorem WF_SetDefaultCluster (s : SystemState) (id : String) (a b : Bool)
    (hwf : WF s.mem) : WF (SetDefaultCluster s id a b).2.mem := by
  obtain ⟨hnd, hids, hflags, hmem⟩ := hwf
  simp only [SetDefaultCluster]
  split
  · exact ⟨hnd, hids, hflags, hmem⟩
  rename_i c0 hl
  obtain ⟨hc0mem, hc0id⟩ := lookupCluster_eq_some _ _ _ hl
  split
  · -- no previous default pointer
    rename_i hd
    have hdm : s.mem.defaultID = "" := by simpa using hd
    unfold WF
    refine ⟨?_, ?_, ?_, ?_⟩
    · simp only
      rw [ids_map_id_preserving _ _ (setDefaultFlag_id id)]
      exact hnd
    · intro x hx
      simp only [List.mem_map] at hx
      obtain ⟨y, hy, rfl⟩ := hx
      rw [setDefaultFlag_id]
      exact hids y hy
    · intro x hx
      simp only [List.mem_map] at hx
      obtain ⟨y, hy, rfl⟩ := hx
      rcases hy2 : (y.ID == id) with _ | _
      · have hf : y.IsDefault = false := by
          rw [hflags y hy, hdm]
          simp [hids y hy]
      -- y is unchanged and keeps its false flag
        simp [hy2, hf]
      · simp [hy2]
    · intro _
      refine ⟨_, List.mem_map_of_mem _ hc0mem, ?_⟩
      rw [setDefaultFlag_id]
      exact hc0id
  · -- a previous default pointer exists
    rename_i hd
    have hdm : s.mem.defaultID ≠ "" := by simpa using hd
    split
    · -- dangling pointer: impossible under WF
      rename_i hnone
      obtain ⟨y, hy, hyid⟩ := hmem hdm
      have : (lookupCluster s.mem.clusters s.mem.defaultID).isSome := by
        rw [lookupCluster_isSome_iff]
        exact ⟨y, hy, hyid⟩
      rw [hnone] at this
      simp at this
    · rename_i oldDefault holdl
      obtain ⟨holdmem, holdid⟩ := lookupCluster_eq_some _ _ _ holdl
      unfold WF
      refine ⟨?_, ?_, ?_, ?_⟩
      · simp only
        rw [ids_map_id_preserving _ _ (setDefaultFlag_id id),
          ids_mapAssign_of_present]
        · exact hnd
        · rw [List.any_eq_true]
          exact ⟨oldDefault, holdmem, by simp [holdid]⟩
      · intro x hx
        simp only [List.mem_map] at hx
        obtain ⟨y, hy, rfl⟩ := hx
        rw [setDefaultFlag_id]
        rcases mem_mapAssign _ _ _ hy with rfl | ⟨hy2, _⟩
        · exact hids oldDefault holdmem
        · exact hids y hy2
      · intro x hx
        simp only [List.mem_map] at hx
        obtain ⟨y, hy, rfl⟩ := hx
        rcases hy2 : (y.ID == id) with _ | _
        · have hf : y.IsDefault = false := by
            rcases mem_mapAssign _ _ _ hy with rfl | ⟨hy3, hy4⟩
            · rfl
            · rw [hflags y hy3]
              simp only [beq_eq_false_iff_ne, ne_eq]
              intro hh
              exact hy4 (by rw [hh, holdid])
          simp [hy2, hf]
        · simp [hy2]
      · intro _
        by_cases hcase : id = s.mem.defaultID
        · refine ⟨_, List.mem_map_of_mem _ (self_mem_mapAssign s.mem.clusters
            { oldDefault with IsDefault := false }), ?_⟩
          rw [setDefaultFlag_id]
          simp only
          rw [holdid, ← hcase]
        · refine ⟨_, List.mem_map_of_mem _
            (mem_mapAssign_of_ne _ _ c0 hc0mem ?_), ?_⟩
          · simp only
            rw [hc0id, holdid]
            exact hcase
          · rw [setDefaultFlag_id]
            exact hc0id

theorem WF_AddCluster (s : SystemState) (name description : String)
    (labels : List (String × String)) (env : ConnEnv) (now : Nat)
    (dbOk : Bool) (hwf : WF s.mem)
    (hfresh : lookupCluster s.mem.clusters ("custom-" ++ toString now) = none) :
    WF (AddCluster s name description labels env now dbOk).2.mem := by
  rw [lookupCluster_eq_none_iff] at hfresh
  have hne : ("custom-" ++ toString now) ≠ "" :=
    append_ne_empty_left _ _ (by simp [String.data])
  simp only [AddCluster]
  split
  · exact hwf
  split
  · exact hwf
  split
  · exact hwf
  split
  · exact hwf
  split
  · -- the inserted record became the single entry and is the default
    rename_i hlen
    have hdm : s.mem.defaultID = "" := by
      have hany : (s.mem.clusters.any fun x =>
          x.ID == "custom-" ++ toString now) = false := by
        rw [List.any_eq_false]
        intro x hx
        simpa using hfresh x hx
      rw [show mapAssign s.mem.clusters _ = s.mem.clusters ++ [_] from by
        unfold mapAssign
        rw [if_neg (by simp [hany])]] at hlen
      have hempty : s.mem.clusters = [] := by
        have h9 := (beq_iff_eq).1 hlen
        rw [List.length_append] at h9
        simp only [List.length_singleton] at h9
        exact List.length_eq_zero.1 (by omega)
      by_contra hdm
      obtain ⟨y, hy, _⟩ := hwf.2.2.2 hdm
      rw [hempty] at hy
      simp at hy
    exact WF_insert_fresh s.mem _ true hwf hfresh hne rfl (fun _ => hdm)
  · exact WF_insert_fresh s.mem _ false hwf hfresh hne rfl (by simp)

theorem WF_registerInCluster (s : SystemState) (env : InClusterEnv)
    (now : Nat) (dbOk : Bool) (hwf : WF s.mem) :
    WF (registerInCluster s env now dbOk).2.mem := by
  simp only [registerInCluster]
  split
  · exact hwf
  split
  · exact hwf
  split
  · exact hwf
  rename_i hdet hex hcli
  have hfresh : ∀ x ∈ s.mem.clusters, x.ID ≠ "in-cluster" := by
    rw [← lookupCluster_eq_none_iff]
    rcases hl : lookupCluster s.mem.clusters "in-cluster"
    · rfl
    · rw [hl] at hex
      simp at hex
  split
  · rename_i hd
    refine WF_insert_fresh s.mem _ true hwf hfresh ?_ rfl
      (fun _ => by simpa using hd)
    exact (by decide : ("in-cluster" : String) ≠ "")
  · refine WF_insert_fresh s.mem _ false hwf hfresh ?_ rfl (by simp)
    exact (by decide : ("in-cluster" : String) ≠ "")

theorem WF_loadKubeconfigContext (s : SystemState) (ctx : KubeContext)
    (hwf : WF s.mem) : WF (loadKubeconfigContext s ctx).mem := by
  simp only [loadKubeconfigContext]
  split
  · exact hwf
  split
  · exact hwf
  split
  · exact hwf
  split
  · exact hwf
  rename_i hex0 hex hcfg hcli
  have hfresh : ∀ x ∈ s.mem.clusters,
      x.ID ≠ "kubeconfig-" ++ ctx.contextName := by
    rw [← lookupCluster_eq_none_iff]
    rcases hl : lookupCluster s.mem.clusters ("kubeconfig-" ++ ctx.contextName)
    · rfl
    · rw [hl] at hex
      simp at hex
  have hne : ("kubeconfig-" ++ ctx.contextName) ≠ "" :=
    append_ne_empty_left _ _ (by simp [String.data])
  split
  · rename_i hd
    exact WF_insert_fresh s.mem _ true hwf hfresh hne rfl
      (fun _ => by simpa using hd)
  · exact WF_insert_fresh s.mem _ false hwf hfresh hne rfl (by simp)

theorem WF_scanClustersInDir (s : SystemState) (ctxs : List KubeContext)
    (hwf : WF s.mem) : WF (scanClustersInDir s ctxs).mem := by
  unfold scanClustersInDir
  induction ctxs generalizing s with
  | nil => exact hwf
  | cons ctx rest ih =>
    simp only [List.foldl_cons]
    exact ih _ (WF_loadKubeconfigContext s ctx hwf)

theorem WF_loadFold (rows : List ClusterModel) (m : ManagerState)
    (hc : String → Bool) (hwf : WF m)
    (hfresh : ∀ r ∈ rows, r.ID ≠ "" ∧ ∀ x ∈ m.clusters, x.ID ≠ r.ID)
    (hndr : (rows.map (fun r => r.ID)).Nodup)
    (hdisj : m.defaultID = "" ∨ ∀ r ∈ rows, r.IsDefault = false)
    (hone : (rows.filter (fun r => r.IsDefault)).length ≤ 1) :
    WF (rows.foldl (fun st model => loadClusterStep st model (hc model.ID))
      m) := by
  induction rows generalizing m with
  | nil => exact hwf
  | cons r rs ih =>
    simp only [List.foldl_cons]
    obtain ⟨hrne, hrfresh⟩ := hfresh r (by simp)
    have happ : mapAssign m.clusters (modelToClusterInfo r (hc r.ID)) =
        m.clusters ++ [modelToClusterInfo r (hc r.ID)] := by
      unfold mapAssign
      rw [if_neg]
      simp only [Bool.not_eq_true, List.any_eq_false]
      intro x hx
      simpa using hrfresh x hx
    have hstep : WF (loadClusterStep m r (hc r.ID)) := by
      simp only [loadClusterStep]
      split
      · rename_i hdf
        have hdm : m.defaultID = "" := by
          rcases hdisj with hdm | hall
          · exact hdm
          · exact absurd (hall r (by simp)) (by simp [hdf])
        exact WF_insert_fresh m _ true hwf hrfresh hrne hdf (fun _ => hdm)
      · rename_i hdf
        exact WF_insert_fresh m _ false hwf hrfresh hrne
          (by simpa using hdf) (by simp)
    refine ih _ hstep ?_ (by simpa using hndr.of_cons) ?_ ?_
    · intro q hq
      obtain ⟨hqne, hqf⟩ := hfresh q (by simp [hq])
      refine ⟨hqne, ?_⟩
      intro x hx
      have hx2 : x ∈ mapAssign m.clusters (modelToClusterInfo r (hc r.ID)) := hx
      rcases mem_mapAssign _ _ _ hx2 with rfl | ⟨hx3, _⟩
      · show r.ID ≠ q.ID
        rw [List.map_cons, List.nodup_cons] at hndr
        intro hh
        exact hndr.1 (hh ▸ (by rw [List.mem_map]; exact ⟨q, hq, rfl⟩))
      · exact hqf x hx3
    · rcases hdisj with hdm | hall
      · rcases hdf : r.IsDefault with _ | _
        · left
          simp only [loadClusterStep]
          rw [if_neg (by simp [hdf])]
          exact hdm
        · right
          rw [List.filter_cons_of_pos (by simp [hdf]), List.length_cons] at hone
          intro q hq
          have h0 : (rs.filter (fun r => r.IsDefault)).length = 0 := by omega
          rw [List.length_eq_zero, List.filter_eq_nil_iff] at h0
          simpa using h0 q hq
      · right
        intro q hq
        exact hall q (by simp [hq])
    · calc (rs.filter (fun r => r.IsDefault)).length
          ≤ ((r :: rs).filter (fun r => r.IsDefault)).length := by
            rcases hdf : r.IsDefault with _ | _
            · rw [List.filter_cons_of_neg (by simp [hdf])]
            · rw [List.filter_cons_of_pos (by simp [hdf]), List.length_cons]
              exact Nat.le_succ _
        _ ≤ 1 := hone

theorem WF_loadClustersFromDB_empty (db : DB) (hc : String → Bool)
    (hnd : ((repoGetAll db).map (fun r => r.ID)).Nodup)
    (hne : ∀ r ∈ repoGetAll db, r.ID ≠ "")
    (hone : ((repoGetAll db).filter (fun r => r.IsDefault)).length ≤ 1) :
    WF (loadClustersFromDB ⟨[], ""⟩ db hc) := by
  unfold loadClustersFromDB
  exact WF_loadFold _ _ hc WF_empty (fun r hr => ⟨hne r hr, by simp⟩) hnd
    (Or.inl rfl) hone

theorem ensureDefault_sets_pointer (s : SystemState) (b : Bool)
    (hwf : WF s.mem)
    (hne : (ensureDefaultCluster s b).2.mem.clusters ≠ []) :
    (ensureDefaultCluster s b).2.mem.defaultID ≠ "" := by
  rcases hd : (s.mem.defaultID == "") with _ | _
  · have huc : (ensureDefaultCluster s b).2 = s := by
      unfold ensureDefaultCluster
      rw [if_pos (by simp [hd])]
    rw [huc]
    simpa using hd
  · cases hc : s.mem.clusters with
    | nil =>
      have huc : (ensureDefaultCluster s b).2 = s := by
        unfold ensureDefaultCluster
        rw [if_neg (by simp [hd]), hc]
      rw [huc] at hne
      exact absurd hc hne
    | cons c rest =>
      have hid : (ensureDefaultCluster s b).2.mem.defaultID = c.ID := by
        unfold ensureDefaultCluster
        rw [if_neg (by simp [hd]), hc]
      rw [hid]
      exact hwf.2.1 c (by rw [hc]; simp)

theorem WF_Initialize (db : DB) (env : InitEnv)
    (hnd : ((repoGetAll db).map (fun r => r.ID)).Nodup)
    (hne : ∀ r ∈ repoGetAll db, r.ID ≠ "")
    (hone : ((repoGetAll db).filter (fun r => r.IsDefault)).length ≤ 1) :
    WF (Initialize db env).mem ∧
    ((Initialize db env).mem.clusters ≠ [] →
      countDefaults (Initialize db env).mem.clusters = 1) := by
  have h1 : WF (loadClustersFromDB ⟨[], ""⟩ db env.hasClient) :=
    WF_loadClustersFromDB_empty db env.hasClient hnd hne hone
  have h2 := WF_registerInCluster
    ⟨loadClustersFromDB ⟨[], ""⟩ db env.hasClient, db⟩ env.inCluster
    env.nowInCluster env.dbOkInCluster h1
  have h3 := WF_scanClustersInDir _ env.contexts h2
  have h4 := WF_ensureDefaultCluster _ env.saveOkEnsure h3
  have hinit : (Initialize db env).mem =
      (ensureDefaultCluster
        (scanClustersInDir
          (registerInCluster
            ⟨loadClustersFromDB ⟨[], ""⟩ db env.hasClient, db⟩
            env.inCluster env.nowInCluster env.dbOkInCluster).2
          env.contexts)
        env.saveOkEnsure).2.mem := rfl
  rw [hinit]
  refine ⟨h4, ?_⟩
  intro hnonempty
  rw [WF_countDefaults _ h4,
    if_neg (ensureDefault_sets_pointer _ env.saveOkEnsure h3 hnonempty)]

/-- C1 (amended): with `WF` the invariant "a record is flagged default iff
its id equals the default pointer (ids distinct and nonempty, a set pointer
names a present record)", the count of `isDefault = true` records in a
well-formed state is 0 exactly when the pointer is empty and 1 otherwise;
the empty initial state is well formed; every Registry operation preserves
well-formedness — `AddCluster` provided its generated id is not already
present (same-second id collisions break the invariant, see the
counterexample) — as do discovery stages 2-4 and a health cycle; stage 1
preserves it provided the loaded rows carry pairwise-distinct nonempty ids
and at most one default flag; and after `Initialize` over such a store a
non-empty registry has exactly one record with `isDefault = true`. -/
theorem default_uniqueness_invariant :
    (∀ m, WF m →
      countDefaults m.clusters = if m.defaultID = "" then 0 else 1) ∧
    WF ⟨[], ""⟩ ∧
    (∀ s name description labels env now dbOk, WF s.mem →
      lookupCluster s.mem.clusters ("custom-" ++ toString now) = none →
      WF (AddCluster s name description labels env now dbOk).2.mem) ∧
    (∀ s id a b, WF s.mem → WF (RemoveCluster s id a b).2.mem) ∧
    (∀ s id a b, WF s.mem → WF (SetDefaultCluster s id a b).2.mem) ∧
    (∀ s id labels now b, WF s.mem →
      WF (UpdateClusterLabels s id labels now b).2.mem) ∧
    (∀ s id url u p e now b, WF s.mem →
      WF (UpdateClusterPrometheus s id url u p e now b).2.mem) ∧
    (∀ s env now dbOk, WF s.mem →
      WF (registerInCluster s env now dbOk).2.mem) ∧
    (∀ s ctxs, WF s.mem → WF (scanClustersInDir s ctxs).mem) ∧
    (∀ s b, WF s.mem → WF (ensureDefaultCluster s b).2.mem) ∧
    (∀ m outcome now, WF m → WF (checkAllClusters m outcome now)) ∧
    (∀ db hc, ((repoGetAll db).map (fun r => r.ID)).Nodup →
      (∀ r ∈ repoGetAll db, r.ID ≠ "") →
      ((repoGetAll db).filter (fun r => r.IsDefault)).length ≤ 1 →
      WF (loadClustersFromDB ⟨[], ""⟩ db hc)) ∧
    (∀ db env, ((repoGetAll db).map (fun r => r.ID)).Nodup →
      (∀ r ∈ repoGetAll db, r.ID ≠ "") →
      ((repoGetAll db).filter (fun r => r.IsDefault)).length ≤ 1 →
      WF (Initialize db env).mem ∧
      ((Initialize db env).mem.clusters ≠ [] →
        countDefaults (Initialize db env).mem.clusters = 1)) :=
  ⟨WF_countDefaults, WF_empty,
   fun s n d l env now ok hwf hf => WF_AddCluster s n d l env now ok hwf hf,
   fun s id a b hwf => WF_RemoveCluster s id a b hwf,
   fun s id a b hwf => WF_SetDefaultCluster s id a b hwf,
   fun s id l now b hwf => WF_UpdateClusterLabels s id l now b hwf,
   fun s id url u p e now b hwf =>
     WF_UpdateClusterPrometheus s id url u p e now b hwf,
   fun s env now dbOk hwf => WF_registerInCluster s env now dbOk hwf,
   fun s ctxs hwf => WF_scanClustersInDir s ctxs hwf,
   fun s b hwf => WF_ensureDefaultCluster s b hwf,
   fun m outcome now hwf => WF_checkAllClusters m outcome now hwf,
   fun db hc hnd hne hone => WF_loadClustersFromDB_empty db hc hnd hne hone,
   fun db env hnd hne hone => WF_Initialize db env hnd hne hone⟩

/-- Witness for C1 at concrete inputs: the two-cluster state reached by two
adds is well formed, removal preserves well-formedness, and the count
characterization gives exactly one default. -/
theorem default_uniqueness_invariant_witness :
    WF twoClusterSystem.mem ∧
    WF (RemoveCluster twoClusterSystem "custom-5" true true).2.mem ∧
    countDefaults twoClusterSystem.mem.clusters =
      (if twoClusterSystem.mem.defaultID = "" then 0 else 1) := by
  have h1 : WF twoClusterSystem.mem := by decide
  exact ⟨h1,
    default_uniqueness_invariant.2.2.2.1 twoClusterSystem "custom-5" true true h1,
    default_uniqueness_invariant.1 twoClusterSystem.mem h1⟩

/-- State reached from the empty registry by `AddCluster` at second 5,
`AddCluster` at second 6, `SetDefaultCluster("custom-6")`, and another
successful `AddCluster` at second 6: the same-second id collision makes the
last add overwrite the current default record with a `isDefault = false`
record. -/
def collidedSystem : SystemState :=
  (AddCluster (SetDefaultCluster twoClusterSystem "custom-6" true true).2
    "C" "d" [] okConnEnv 6 true).2

/-- C1 counterexample: a state reachable by registry operations alone (with
a monotone clock: adds at Unix seconds 5, 6, 6) holds two records and ZERO
records with `isDefault = true` — the claimed invariant "the count is 0 only
when the registry is empty" is false on the code. -/
theorem default_count_zero_nonempty_counterexample :
    collidedSystem.mem.clusters.length = 2 ∧
    countDefaults collidedSystem.mem.clusters = 0 := by
  constructor <;> decide

end Nexus
